import Mathlib

/-! ## registryd/deviceeventcontroller.c and cspi/spi_table.c

A shallow embedding of the keyboard part of the device event controller
(the mask comparison, listener (de)registration, the key-event dispatch pass
and the grab pass) and of the selected-rows and selected-columns queries of
the table interface.  Calls into glib, ORBit and Xlib are given their library
contracts; the repository's own functions are transcribed statement by
statement.
-/

namespace Registryd

/-! ## C integer conversions -/

/-- Conversion of an integer to a signed two's-complement type of `bits` bits. -/
def to_signed (bits : Nat) (x : Int) : Int :=
  let r := x % (2 : Int) ^ bits
  if r < (2 : Int) ^ (bits - 1) then r else r - (2 : Int) ^ bits

/-- Conversion of an integer to an unsigned type of `bits` bits. -/
def to_unsigned (bits : Nat) (x : Int) : Nat :=
  (x % (2 : Int) ^ bits).toNat

/-! ## CORBA types used by the controller -/

/-- The struct `Accessibility_ControllerEventMask`: `value` is a
`CORBA_unsigned_long` (32 bits), `refcount` a `CORBA_unsigned_short` (16 bits). -/
structure Accessibility_ControllerEventMask where
  value : Nat
  refcount : Nat
deriving DecidableEq, Repr

/-- The comparison callback `_eventmask_compare_value (p1, p2)`, lines 90-98.
A null pointer is `none`.  The subtraction is done in `long` (`long_bits`
wide) and the result is returned as a `gint` (32 bits). -/
def _eventmask_compare_value (long_bits : Nat)
    (p1 p2 : Option Accessibility_ControllerEventMask) : Int :=
  match p1, p2 with
  | some m1, some m2 =>
      to_signed 32
        (to_signed long_bits
          (to_signed long_bits (m2.value : Int) - to_signed long_bits (m1.value : Int)))
  | some _, none => 1
  | none, some _ => -1
  | none, none => 0

/-- A `CORBA_Object` reference, identified by the object it denotes; `0` is
`CORBA_OBJECT_NIL`. -/
abbrev CORBA_Object := Nat

/-- ORBit: `CORBA_Object_is_nil`. -/
def CORBA_Object_is_nil (o : CORBA_Object) : Bool := o == 0

/-- ORBit: `CORBA_Object_is_equivalent`, true when both references denote the
same object. -/
def CORBA_Object_is_equivalent (a b : CORBA_Object) : Bool := a == b

/-- ORBit: `CORBA_Object_duplicate` returns a reference to the same object. -/
def CORBA_Object_duplicate (o : CORBA_Object) : CORBA_Object := o

/-- The enum `Accessibility_KeyEventType` of the IDL. -/
inductive Accessibility_KeyEventType where
  | Accessibility_KEY_PRESSED
  | Accessibility_KEY_RELEASED
deriving DecidableEq, Repr

/-- The struct `Accessibility_KeyStroke`: `keyID` is a `CORBA_long`, `modifiers`
a `CORBA_unsigned_short`. -/
structure Accessibility_KeyStroke where
  keyID : Int
  type : Accessibility_KeyEventType
  modifiers : Nat
deriving DecidableEq, Repr

/-- The enum `DeviceTypeCategory`, lines 56-60. -/
inductive DeviceTypeCategory where
  | DEVICE_TYPE_KBD
  | DEVICE_TYPE_MOUSE
  | DEVICE_TYPE_LAST_DEFINED
deriving DecidableEq, Repr

/-- The two lists of a `DeviceEventController`.  `key_listeners` holds object
references, `keymask_list` holds pointers to heap masks (`none` is a null data
pointer); every mask struct is owned by the link that points to it. -/
structure DeviceEventController where
  key_listeners : List CORBA_Object
  keymask_list : List (Option Accessibility_ControllerEventMask)
deriving DecidableEq, Repr

/-! ## Pointers and glib lists -/

/-- The addresses the controller code passes around.  Links, mask structs and
objects are separate allocations, so pointers of different kinds are never
equal. -/
inductive gpointer where
  | NULL
  | object (o : CORBA_Object)
  | eventmask (pos : Nat)
  | key_link (pos : Nat)
  | mask_link (pos : Nat)
deriving DecidableEq, Repr

/-- The data pointer stored in a link of `key_listeners`. -/
def listener_data (_pos : Nat) (o : CORBA_Object) : gpointer :=
  if CORBA_Object_is_nil o then gpointer.NULL else gpointer.object o

/-- The data pointer stored in link `pos` of `keymask_list`. -/
def mask_data (pos : Nat) (m : Option Accessibility_ControllerEventMask) : gpointer :=
  match m with
  | some _ => gpointer.eventmask pos
  | none => gpointer.NULL

/-- glib: `g_list_append (list, data)` adds a link at the end. -/
def g_list_append {α : Type} (list : List α) (data : α) : List α := list ++ [data]

/-- glib: `g_list_length`. -/
def g_list_length {α : Type} (list : List α) : Nat := list.length

/-- glib: `g_list_nth_data (list, n)`, the data of link `n`, or NULL (`null`)
past the end. -/
def g_list_nth_data {α : Type} (null : α) (list : List α) (n : Nat) : α :=
  list.getD n null

/-- glib: `GList *g_list_find_custom (list, data, func)` returns the first LINK
whose data makes `func (link->data, data)` zero, or NULL.  The result is the
position of that link (`none` for NULL); line 156 stores it in a `GList *`. -/
def g_list_find_custom {α β : Type} (list : List α) (data : β) (func : α → β → Int) :
    Option Nat :=
  list.findIdx? (fun d => func d data == 0)

/-- The pointer value of a `g_list_find_custom` result. -/
def link_pointer (mk : Nat → gpointer) : Option Nat → gpointer
  | some pos => mk pos
  | none => gpointer.NULL

/-- Scan of `g_list_remove` from link `pos` on. -/
def g_list_remove_from {α : Type} (addr : Nat → α → gpointer) (data : gpointer) :
    Nat → List α → List α
  | _, [] => []
  | pos, x :: rest =>
      if addr pos x = data then rest else x :: g_list_remove_from addr data (pos + 1) rest

/-- glib: `g_list_remove (list, data)` unlinks the first link whose data pointer
equals `data` and leaves the list unchanged when there is none.  `addr` gives
the data pointer stored in each link. -/
def g_list_remove {α : Type} (addr : Nat → α → gpointer) (list : List α)
    (data : gpointer) : List α :=
  g_list_remove_from addr data 0 list

/-! ## Private methods of the controller -/

/-- The callback `_compare_corba_objects (p1, p2)`, lines 75-88:
`!CORBA_Object_is_equivalent (p1, p2)`. -/
def _compare_corba_objects (p1 p2 : CORBA_Object) : Int :=
  if CORBA_Object_is_equivalent p1 p2 then 0 else 1

/-- Ways a call leaves defined behaviour.  Each carries the two lists as they
stood just before the stray store or the null read; what memory holds after a
stray store is outside the embedding. -/
inductive Fault where
  | link_as_mask (c : DeviceEventController)
  | null_mask (c : DeviceEventController)
deriving DecidableEq, Repr

/-- The effect of `mask_ptr->refcount = f (mask_ptr->refcount)` (a
`CORBA_unsigned_short`) for each kind of pointer `mask_ptr` may hold.  Only a
pointer to a mask struct reaches a refcount; a link pointer addresses the
link's own `data`/`next`/`prev` words, so the store lands in the list
structure. -/
def refcount_store (c : DeviceEventController) (mask_ptr : gpointer) (f : Nat → Nat) :
    Except Fault DeviceEventController :=
  match mask_ptr with
  | gpointer.eventmask pos =>
      match c.keymask_list.getD pos none with
      | some m =>
          Except.ok { c with keymask_list :=
            c.keymask_list.set pos (some { m with refcount := f m.refcount % 65536 }) }
      | none => Except.error (Fault.null_mask c)
  | gpointer.NULL => Except.error (Fault.null_mask c)
  | _ => Except.error (Fault.link_as_mask c)

/-- The value read by `mask_ptr->refcount`. -/
def refcount_load (c : DeviceEventController) (mask_ptr : gpointer) : Except Fault Nat :=
  match mask_ptr with
  | gpointer.eventmask pos =>
      match c.keymask_list.getD pos none with
      | some m => Except.ok m.refcount
      | none => Except.error (Fault.null_mask c)
  | gpointer.NULL => Except.error (Fault.null_mask c)
  | _ => Except.error (Fault.link_as_mask c)

/-- The function `_controller_register_device_listener`, lines 100-143.  The
`fprintf` diagnostics of lines 121-128 change no state and are left out. -/
def _controller_register_device_listener (long_bits : Nat) (controller : DeviceEventController)
    (l : CORBA_Object) (mask : Accessibility_ControllerEventMask)
    (type : DeviceTypeCategory) : Except Fault DeviceEventController :=
  match type with
  | DeviceTypeCategory.DEVICE_TYPE_KBD =>
      let c1 := { controller with
        key_listeners := g_list_append controller.key_listeners (CORBA_Object_duplicate l) }
      -- the `GList *` is cast to `Accessibility_ControllerEventMask *`
      let mask_ptr := link_pointer gpointer.mask_link
        (g_list_find_custom c1.keymask_list (some mask) (_eventmask_compare_value long_bits))
      if mask_ptr ≠ gpointer.NULL then
        refcount_store c1 mask_ptr (fun r => r + 1)
      else
        let fresh : Accessibility_ControllerEventMask := { value := mask.value, refcount := 1 }
        Except.ok { c1 with keymask_list := g_list_append c1.keymask_list (some fresh) }
  | DeviceTypeCategory.DEVICE_TYPE_MOUSE => Except.ok controller
  | DeviceTypeCategory.DEVICE_TYPE_LAST_DEFINED => Except.ok controller

/-- Lines 156-158 of `_controller_deregister_device_listener`: the listener is
looked up and `g_list_remove` is handed the link that was found. -/
def deregister_key_listener (controller : DeviceEventController) (l : CORBA_Object) :
    DeviceEventController :=
  let list_ptr := link_pointer gpointer.key_link
    (g_list_find_custom controller.key_listeners l _compare_corba_objects)
  if list_ptr ≠ gpointer.NULL then
    { controller with
      key_listeners := g_list_remove listener_data controller.key_listeners list_ptr }
  else controller

/-- Lines 160-169 of `_controller_deregister_device_listener`: the mask is
looked up, the `GList *` is cast to `Accessibility_ControllerEventMask *`, the
refcount is decremented under `if (mask_ptr)` and then read without that test.
Line 168 is an empty statement: no grab is released. -/
def deregister_keymask (long_bits : Nat) (controller : DeviceEventController)
    (mask : Accessibility_ControllerEventMask) : Except Fault DeviceEventController :=
  let mask_ptr := link_pointer gpointer.mask_link
    (g_list_find_custom controller.keymask_list (some mask)
      (_eventmask_compare_value long_bits))
  match (if mask_ptr ≠ gpointer.NULL then
      refcount_store controller mask_ptr (fun r => r + 65535)
    else Except.ok controller) with
  | Except.error e => Except.error e
  | Except.ok c2 =>
      match refcount_load c2 mask_ptr with
      | Except.error e => Except.error e
      | Except.ok refcount =>
          if refcount = 0 then
            Except.ok { c2 with
              keymask_list := g_list_remove mask_data c2.keymask_list mask_ptr }
          else Except.ok c2

/-- The function `_controller_deregister_device_listener`, lines 145-178. -/
def _controller_deregister_device_listener (long_bits : Nat)
    (controller : DeviceEventController) (l : CORBA_Object)
    (mask : Accessibility_ControllerEventMask) (type : DeviceTypeCategory) :
    Except Fault DeviceEventController :=
  match type with
  | DeviceTypeCategory.DEVICE_TYPE_KBD =>
      deregister_keymask long_bits (deregister_key_listener controller l) mask
  | DeviceTypeCategory.DEVICE_TYPE_MOUSE => Except.ok controller
  | DeviceTypeCategory.DEVICE_TYPE_LAST_DEFINED => Except.ok controller

/-- The function `device_event_controller_init`, lines 444-451: both lists start
empty. -/
def device_event_controller_init : DeviceEventController :=
  { key_listeners := [], keymask_list := [] }

/-- A series of keyboard registrations, each applied to the state the previous
one returned. -/
def keyboard_register_calls (long_bits : Nat) :
    DeviceEventController → List (CORBA_Object × Accessibility_ControllerEventMask) →
    Except Fault DeviceEventController
  | c, [] => Except.ok c
  | c, (l, mask) :: rest =>
      match _controller_register_device_listener long_bits c l mask
          DeviceTypeCategory.DEVICE_TYPE_KBD with
      | Except.ok c1 => keyboard_register_calls long_bits c1 rest
      | Except.error e => Except.error e

/-! ## Xlib -/

/-- X.h: event type `KeyPress`. -/
def KeyPress : Int := 2

/-- X.h: event type `KeyRelease`. -/
def KeyRelease : Int := 3

/-- X.h: modifier bit `ControlMask` (`1<<2`). -/
def ControlMask : Nat := 4

/-- X.h: event mode `ReplayKeyboard` of `XAllowEvents`. -/
def ReplayKeyboard : Nat := 5

/-- The fields of an `XEvent` the controller reads: `type`, and for key events
the `keycode` and the modifier `state` (an `unsigned int`). -/
structure XEvent where
  type : Int
  keycode : Nat
  state : Nat
deriving DecidableEq, Repr

/-- The Xlib calls made on `GDK_DISPLAY ()`, with the arguments that vary. -/
inductive XCall where
  | XPeekEvent
  | XNextEvent
  | XAllowEvents (event_mode : Nat)
  | XGrabKey (modifiers : Nat)
deriving DecidableEq, Repr

/-! ## The grab pass -/

/-- The `for` loop of `_controller_grab_keyboard`, lines 318-343, with
`remaining = last_mask - i` iterations to go.  Returns the function's result
and the `XGrabKey` calls made, in order. -/
def grab_loop (maskList : List (Option Accessibility_ControllerEventMask)) :
    (remaining : Nat) → (i : Nat) → Bool × List XCall
  | 0, _ => (true, [])
  | remaining + 1, i =>
      let maskVal : Nat :=
        match g_list_nth_data none maskList i with
        | some mask => mask.value
        | none => 0xFFFFFFFF
      if maskVal &&& ControlMask = 0 then
        let rest := grab_loop maskList remaining (i + 1)
        (rest.1, XCall.XGrabKey maskVal :: rest.2)
      else
        (false, [])

/-- The function `_controller_grab_keyboard`, lines 299-345. -/
def _controller_grab_keyboard (controller : DeviceEventController) : Bool × List XCall :=
  let maskList := controller.keymask_list
  let last_mask := g_list_length maskList
  grab_loop maskList last_mask 0

/-! ## The dispatch pass -/

/-- One remote call `Accessibility_KeystrokeListener_keyEvent (ls, &key_event, &ev)`
as seen from the controller: who was called, with what, and the answer. -/
structure Invocation where
  listener : CORBA_Object
  key_event : Accessibility_KeyStroke
  consumed : Bool
deriving DecidableEq, Repr

/-- The relay loop of `_check_key_event`, lines 266-275, with
`remaining = n_listeners - i` iterations to go.  `keyEvent` is the remote
call, acting on the state `σ` of the listeners' processes.  Returns the final
`is_consumed`, the listeners' state and the calls made, in order. -/
def relay_loop {σ : Type} (keyEvent : σ → CORBA_Object → Accessibility_KeyStroke → Bool × σ)
    (key_listeners : List CORBA_Object) (key_event : Accessibility_KeyStroke) :
    (remaining : Nat) → (i : Nat) → (is_consumed : Bool) → σ → Bool × σ × List Invocation
  | 0, _, is_consumed, w => (is_consumed, w, [])
  | remaining + 1, i, is_consumed, w =>
      if is_consumed then (is_consumed, w, [])
      else
        let ls := g_list_nth_data 0 key_listeners i
        if CORBA_Object_is_nil ls then
          relay_loop keyEvent key_listeners key_event remaining (i + 1) is_consumed w
        else
          let answer := keyEvent w ls key_event
          let rest := relay_loop keyEvent key_listeners key_event remaining (i + 1)
            answer.1 answer.2
          (rest.1, rest.2.1, { listener := ls, key_event := key_event, consumed := answer.1 }
            :: rest.2.2)

/-- What one call of `_check_key_event` did: its return value, the final value
of the local `is_consumed`, the listener calls, the Xlib calls, the display's
event queue afterwards and the listeners' state. -/
structure DispatchPass (σ : Type) where
  retval : Bool
  is_consumed : Bool
  calls : List Invocation
  xcalls : List XCall
  queue : List XEvent
  world : σ

/-- The function `_check_key_event`, lines 207-297, built without `SPI_DEBUG`.
The display's queue is `x_event :: pending`; `XLookupKeysym` is the keyboard
mapping; `uninit` is whatever the automatic variable `key_event` holds on
entry, since only the `KeyPress` branch assigns it. -/
def _check_key_event {σ : Type} (XLookupKeysym : XEvent → Nat → Nat)
    (keyEvent : σ → CORBA_Object → Accessibility_KeyStroke → Bool × σ)
    (uninit : Accessibility_KeyStroke) (controller : DeviceEventController)
    (x_event : XEvent) (pending : List XEvent) (w : σ) : DispatchPass σ :=
  let n_listeners := g_list_length controller.key_listeners
  let key_event : Accessibility_KeyStroke :=
    if x_event.type = KeyPress then
      { keyID := to_signed 32 (XLookupKeysym x_event 0 : Nat)
        type := Accessibility_KeyEventType.Accessibility_KEY_PRESSED
        modifiers := to_unsigned 16 (x_event.state : Nat) }
    else uninit
  let relayed := relay_loop keyEvent controller.key_listeners key_event n_listeners 0 false w
  let is_consumed := relayed.1
  let grabbed := _controller_grab_keyboard controller
  { retval := grabbed.1
    is_consumed := is_consumed
    calls := relayed.2.2
    xcalls := [XCall.XPeekEvent] ++ (if is_consumed then [XCall.XNextEvent] else [])
      ++ [XCall.XAllowEvents ReplayKeyboard] ++ grabbed.2
    queue := if is_consumed then pending else x_event :: pending
    world := relayed.2.1 }

/-- The relay loop as a recursion over the listeners still to visit; it is
shown equal to `relay_loop` and used to reason about it. -/
def relay_list {σ : Type} (keyEvent : σ → CORBA_Object → Accessibility_KeyStroke → Bool × σ)
    (key_event : Accessibility_KeyStroke) :
    List CORBA_Object → Bool → σ → Bool × σ × List Invocation
  | [], is_consumed, w => (is_consumed, w, [])
  | ls :: rest, is_consumed, w =>
      if is_consumed then (is_consumed, w, [])
      else if CORBA_Object_is_nil ls then relay_list keyEvent key_event rest is_consumed w
      else
        let answer := keyEvent w ls key_event
        let r := relay_list keyEvent key_event rest answer.1 answer.2
        (r.1, r.2.1, { listener := ls, key_event := key_event, consumed := answer.1 } :: r.2.2)

/-! ## The CORBA entry point and series of calls -/

/-- The exception state of a `CORBA_Environment`: `none` is
`CORBA_NO_EXCEPTION`, `some id` a raised exception. -/
abbrev CORBA_Environment := Option String

/-- What `impl_register_keystroke_listener` leaves behind when it returns: the
controller, the caller's `CORBA_Environment` and the Xlib calls it made. -/
structure RegisterReturn where
  controller : DeviceEventController
  ev : CORBA_Environment
  xcalls : List XCall
deriving DecidableEq, Repr

/-- The method `impl_register_keystroke_listener`, lines 364-377: it forwards to
`_controller_register_device_listener` with `DEVICE_TYPE_KBD`.  Neither function
sets an exception in `ev` or calls Xlib. -/
def impl_register_keystroke_listener (long_bits : Nat) (controller : DeviceEventController)
    (l : CORBA_Object) (mask : Accessibility_ControllerEventMask) (ev : CORBA_Environment) :
    Except Fault RegisterReturn :=
  match _controller_register_device_listener long_bits controller l mask
      DeviceTypeCategory.DEVICE_TYPE_KBD with
  | Except.ok c => Except.ok { controller := c, ev := ev, xcalls := [] }
  | Except.error e => Except.error e

/-- A call of one of the two private (de)registration functions. -/
inductive ControllerCall where
  | register (l : CORBA_Object) (mask : Accessibility_ControllerEventMask)
      (type : DeviceTypeCategory)
  | deregister (l : CORBA_Object) (mask : Accessibility_ControllerEventMask)
      (type : DeviceTypeCategory)
deriving DecidableEq, Repr

/-- One call applied to a controller. -/
def controller_call (long_bits : Nat) (c : DeviceEventController) :
    ControllerCall → Except Fault DeviceEventController
  | ControllerCall.register l mask type =>
      _controller_register_device_listener long_bits c l mask type
  | ControllerCall.deregister l mask type =>
      _controller_deregister_device_listener long_bits c l mask type

/-- A series of calls, each applied to the state the previous one returned; the
series stops at the first call that leaves defined behaviour. -/
def controller_calls (long_bits : Nat) :
    DeviceEventController → List ControllerCall → Except Fault DeviceEventController
  | c, [] => Except.ok c
  | c, call :: rest =>
      match controller_call long_bits c call with
      | Except.ok c1 => controller_calls long_bits c1 rest
      | Except.error e => Except.error e

/-- The last lists a series of calls reached inside defined behaviour: those of
the state returned or, when a call left defined behaviour, those standing
just before its stray store or null read.  They are the controller's lists
after the series only when no call faulted: a stray store overwrites a link
of the mask list, and a null read ends the process. -/
def lists_at : Except Fault DeviceEventController → DeviceEventController
  | Except.ok c => c
  | Except.error (Fault.link_as_mask c) => c
  | Except.error (Fault.null_mask c) => c

/-- Whether the grab loop goes on past an entry of the mask list: the entry is
not null and its value has no `ControlMask` bit. -/
def grabbable (e : Option Accessibility_ControllerEventMask) : Bool :=
  match e with
  | some mask => mask.value &&& ControlMask == 0
  | none => false

/-- The `XGrabKey` call the grab loop makes for an entry it goes past. -/
def grab_request (e : Option Accessibility_ControllerEventMask) : XCall :=
  match e with
  | some mask => XCall.XGrabKey mask.value
  | none => XCall.XGrabKey 0xFFFFFFFF

/-- Every entry of the mask list is a mask with a refcount from 1 to 65535. -/
def refcounts_positive (c : DeviceEventController) : Prop :=
  ∀ e ∈ c.keymask_list, ∃ m, e = some m ∧ 0 < m.refcount ∧ m.refcount < 65536

/-- The values held by the mask registry, in list order (`none` for a null
entry). -/
def mask_values (c : DeviceEventController) : List (Option Nat) :=
  c.keymask_list.map (fun e => e.map Accessibility_ControllerEventMask.value)

/-- The sum of the refcounts of the entries of the mask registry. -/
def refcount_sum (c : DeviceEventController) : Nat :=
  (c.keymask_list.map (fun e =>
    match e with
    | some m => m.refcount
    | none => 0)).sum

/-! ## cspi/spi_table.c: the selected rows and columns -/

/-- Ways `cspi_long_seq_to_array` leaves defined behaviour: a read through a
null sequence pointer, or a store through the null result of `malloc`. -/
inductive CspiFault where
  | null_sequence
  | null_array
deriving DecidableEq, Repr

/-- What a selection query hands back: the `long` it returns and the array it
stored through its second argument (`none` is NULL). -/
structure LongArrayReturn where
  retval : Int
  array : Option (List Int)
deriving DecidableEq, Repr

/-- The copy loop of `cspi_long_seq_to_array`, lines 414-417, with
`remaining = length - i` iterations to go: the values stored in `j[i]`,
`j[i + 1]`, ...  A `CORBA_long` keeps its value when stored in a `long`. -/
def copy_loop (buffer : List Int) : (remaining : Nat) → (i : Nat) → List Int
  | 0, _ => []
  | remaining + 1, i => buffer.getD i 0 :: copy_loop buffer remaining (i + 1)

/-- The function `cspi_long_seq_to_array`, lines 400-423.  `cspi_check_ev`
(defined outside these sources) is handed the environment the remote call
left; `malloc` tells whether an allocation of that many bytes returns a
block; `seq` is the sequence pointer, its `_length` (a `CORBA_unsigned_long`)
being the length of its buffer; `long` and `size_t` are `long_bits` wide. -/
def cspi_long_seq_to_array (long_bits : Nat) (cspi_check_ev : CORBA_Environment → Bool)
    (malloc : Nat → Bool) (ev : CORBA_Environment) (seq : Option (List Int)) :
    Except CspiFault LongArrayReturn :=
  if cspi_check_ev ev = false then
    Except.ok { retval := 0, array := none }
  else
    match seq with
    | none => Except.error CspiFault.null_sequence
    | some buffer =>
        let length : Int := to_signed long_bits (buffer.length : Int)
        if malloc (to_unsigned long_bits (((long_bits / 8 : Nat) : Int) * length)) then
          Except.ok { retval := length, array := some (copy_loop buffer length.toNat 0) }
        else if 0 < length then Except.error CspiFault.null_array
        else Except.ok { retval := length, array := none }

/-- The function `AccessibleTable_getSelectedRows`, lines 435-448.
`Accessibility_Table_getSelectedRows` is the remote call: for the object
reference it gives the sequence pointer and the environment it leaves. -/
def AccessibleTable_getSelectedRows (long_bits : Nat)
    (cspi_check_ev : CORBA_Environment → Bool) (malloc : Nat → Bool)
    (Accessibility_Table_getSelectedRows :
      CORBA_Object → Option (List Int) × CORBA_Environment)
    (obj : Option CORBA_Object) : Except CspiFault LongArrayReturn :=
  match obj with
  | none => Except.ok { retval := 0, array := none }
  | some objref =>
      let rows := Accessibility_Table_getSelectedRows objref
      cspi_long_seq_to_array long_bits cspi_check_ev malloc rows.2 rows.1

/-- The function `AccessibleTable_getSelectedColumns`, lines 484-498. -/
def AccessibleTable_getSelectedColumns (long_bits : Nat)
    (cspi_check_ev : CORBA_Environment → Bool) (malloc : Nat → Bool)
    (Accessibility_Table_getSelectedColumns :
      CORBA_Object → Option (List Int) × CORBA_Environment)
    (obj : Option CORBA_Object) : Except CspiFault LongArrayReturn :=
  match obj with
  | none => Except.ok { retval := 0, array := none }
  | some objref =>
      let columns := Accessibility_Table_getSelectedColumns objref
      cspi_long_seq_to_array long_bits cspi_check_ev malloc columns.2 columns.1

/-! ## Concrete surroundings used in examples -/

/-- A keyboard mapping that gives every keycode the keysym of the same number. -/
def plain_keymap : XEvent → Nat → Nat := fun e _ => e.keycode

/-- Listeners without state: listener `o` answers `answers o` to every event. -/
def fixed_answers (answers : CORBA_Object → Bool) :
    Unit → CORBA_Object → Accessibility_KeyStroke → Bool × Unit :=
  fun u o _ => (answers o, u)

/-- A value for the unassigned `key_event`. -/
def stale_key_event : Accessibility_KeyStroke :=
  { keyID := 0, type := Accessibility_KeyEventType.Accessibility_KEY_PRESSED, modifiers := 0 }

/-! ## Facts about the conversions -/

theorem to_signed_sub_dvd (bits : Nat) (x : Int) :
    (2 : Int) ^ bits ∣ to_signed bits x - x := by
  unfold to_signed
  have h := Int.emod_add_ediv x ((2 : Int) ^ bits)
  by_cases hlt : x % (2 : Int) ^ bits < (2 : Int) ^ (bits - 1)
  · simp only [hlt, if_true]
    refine ⟨-(x / (2 : Int) ^ bits), ?_⟩
    linarith
  · simp only [hlt, if_false]
    refine ⟨-(x / (2 : Int) ^ bits) - 1, ?_⟩
    linarith

theorem to_signed_zero (bits : Nat) : to_signed bits 0 = 0 := by
  unfold to_signed
  have h : (0 : Int) < (2 : Int) ^ (bits - 1) := by positivity
  simp [h]

/-- Equality of two 32-bit values is what the comparison callback detects,
for every `long` of at least 32 bits. -/
theorem eventmask_compare_zero_iff (long_bits : Nat) (hl : 32 ≤ long_bits)
    (a b : Accessibility_ControllerEventMask)
    (ha : a.value < 2 ^ 32) (hb : b.value < 2 ^ 32) :
    _eventmask_compare_value long_bits (some a) (some b) = 0 ↔ a.value = b.value := by
  simp only [_eventmask_compare_value]
  constructor
  · intro h
    have hpow : (2 : Int) ^ 32 ∣ (2 : Int) ^ long_bits := pow_dvd_pow 2 hl
    have d1 := to_signed_sub_dvd 32
      (to_signed long_bits
        (to_signed long_bits (b.value : Int) - to_signed long_bits (a.value : Int)))
    have d2 := dvd_trans hpow (to_signed_sub_dvd long_bits
      (to_signed long_bits (b.value : Int) - to_signed long_bits (a.value : Int)))
    have d3 := dvd_trans hpow (to_signed_sub_dvd long_bits (b.value : Int))
    have d4 := dvd_trans hpow (to_signed_sub_dvd long_bits (a.value : Int))
    rw [h] at d1
    have d5 : (2 : Int) ^ 32 ∣ (b.value : Int) - (a.value : Int) := by
      have := dvd_sub (dvd_sub (dvd_add d1 d2) d4) (dvd_neg.mpr d3)
      have e : (b.value : Int) - (a.value : Int) =
          -((0 - to_signed long_bits
              (to_signed long_bits (b.value : Int) - to_signed long_bits (a.value : Int))
            + (to_signed long_bits
                (to_signed long_bits (b.value : Int) - to_signed long_bits (a.value : Int))
              - (to_signed long_bits (b.value : Int) - to_signed long_bits (a.value : Int)))
            - (to_signed long_bits (a.value : Int) - (a.value : Int))
            - -(to_signed long_bits (b.value : Int) - (b.value : Int)))) := by ring
      rw [e]
      exact dvd_neg.mpr this
    obtain ⟨k, hk⟩ := d5
    norm_num at hk
    have ha2 : (a.value : Int) < 4294967296 := by exact_mod_cast ha
    have hb2 : (b.value : Int) < 4294967296 := by exact_mod_cast hb
    omega
  · intro h
    rw [h, sub_self, to_signed_zero, to_signed_zero]

/-! ## Facts about the relay loop -/

section relay
variable {σ : Type} (keyEvent : σ → CORBA_Object → Accessibility_KeyStroke → Bool × σ)
  (key_event : Accessibility_KeyStroke)

theorem relay_loop_eq_relay_list (key_listeners : List CORBA_Object) :
    ∀ (remaining i : Nat) (b : Bool) (w : σ), remaining + i = key_listeners.length →
      relay_loop keyEvent key_listeners key_event remaining i b w
        = relay_list keyEvent key_event (key_listeners.drop i) b w := by
  intro remaining
  induction remaining with
  | zero =>
      intro i b w h
      have hi : key_listeners.length ≤ i := by omega
      simp [relay_loop, List.drop_eq_nil_of_le hi, relay_list]
  | succ k ih =>
      intro i b w h
      have hi : i < key_listeners.length := by omega
      have hd : key_listeners.drop i = key_listeners[i] :: key_listeners.drop (i + 1) :=
        List.drop_eq_getElem_cons hi
      have hn : g_list_nth_data 0 key_listeners i = key_listeners[i] := by
        simp [g_list_nth_data, List.getD_eq_getElem?_getD, List.getElem?_eq_getElem hi]
      rw [hd]
      simp only [relay_loop, relay_list, hn]
      rw [ih (i + 1) b w (by omega), ih (i + 1) _ _ (by omega)]

theorem relay_list_consumed (l : List CORBA_Object) (w : σ) :
    relay_list keyEvent key_event l true w = (true, w, []) := by
  cases l <;> simp [relay_list]

theorem relay_list_listeners (l : List CORBA_Object)
    (hl : ∀ o ∈ l, CORBA_Object_is_nil o = false) :
    ∀ (b : Bool) (w : σ),
      (relay_list keyEvent key_event l b w).2.2.map Invocation.listener
        = l.take (relay_list keyEvent key_event l b w).2.2.length := by
  induction l with
  | nil => intro b w; simp [relay_list]
  | cons ls rest ih =>
      intro b w
      have h1 : CORBA_Object_is_nil ls = false := hl ls (List.mem_cons_self _ _)
      have h2 : ∀ o ∈ rest, CORBA_Object_is_nil o = false :=
        fun o ho => hl o (List.mem_cons_of_mem _ ho)
      cases b with
      | true => simp [relay_list]
      | false =>
          simp only [relay_list, h1, Bool.false_eq_true, if_false, List.map_cons,
            List.length_cons, List.take_succ_cons]
          rw [ih h2]

theorem relay_list_stops (l : List CORBA_Object) :
    ∀ (b : Bool) (w : σ) (j : Nat) (inv : Invocation),
      (relay_list keyEvent key_event l b w).2.2[j]? = some inv → inv.consumed = true →
      j + 1 = (relay_list keyEvent key_event l b w).2.2.length := by
  induction l with
  | nil => intro b w j inv h; simp [relay_list] at h
  | cons ls rest ih =>
      intro b w j inv h hc
      cases b with
      | true => simp [relay_list] at h
      | false =>
          by_cases hn : CORBA_Object_is_nil ls = true
          · simp only [relay_list, hn, Bool.false_eq_true, if_false, if_true] at h ⊢
            exact ih false w j inv h hc
          · simp only [relay_list, hn, Bool.false_eq_true, if_false] at h ⊢
            cases j with
            | zero =>
                simp only [List.getElem?_cons_zero, Option.some.injEq] at h
                subst h
                simp only at hc
                simp [hc, relay_list_consumed]
            | succ j =>
                simp only [List.getElem?_cons_succ] at h
                have := ih _ _ j inv h hc
                simp [this]

theorem relay_list_verdict (l : List CORBA_Object) :
    ∀ (b : Bool) (w : σ),
      (relay_list keyEvent key_event l b w).1
        = (b || (relay_list keyEvent key_event l b w).2.2.any Invocation.consumed) := by
  induction l with
  | nil => intro b w; simp [relay_list]
  | cons ls rest ih =>
      intro b w
      cases b with
      | true => simp [relay_list]
      | false =>
          by_cases hn : CORBA_Object_is_nil ls = true
          · simp only [relay_list, hn, Bool.false_eq_true, if_false, if_true]
            exact ih false w
          · simp only [relay_list, hn, Bool.false_eq_true, if_false, List.any_cons,
              Bool.false_or]
            rw [ih]

theorem relay_list_exhausts (l : List CORBA_Object)
    (hl : ∀ o ∈ l, CORBA_Object_is_nil o = false) :
    ∀ (b : Bool) (w : σ), (relay_list keyEvent key_event l b w).1 = false →
      (relay_list keyEvent key_event l b w).2.2.length = l.length := by
  induction l with
  | nil => intro b w; simp [relay_list]
  | cons ls rest ih =>
      intro b w h
      have h1 : CORBA_Object_is_nil ls = false := hl ls (List.mem_cons_self _ _)
      have h2 : ∀ o ∈ rest, CORBA_Object_is_nil o = false :=
        fun o ho => hl o (List.mem_cons_of_mem _ ho)
      cases b with
      | true => simp [relay_list] at h
      | false =>
          simp only [relay_list, h1, Bool.false_eq_true, if_false, List.length_cons] at h ⊢
          rw [ih h2 _ _ h]

theorem relay_list_key_event (l : List CORBA_Object) :
    ∀ (b : Bool) (w : σ), ∀ inv ∈ (relay_list keyEvent key_event l b w).2.2,
      inv.key_event = key_event := by
  induction l with
  | nil => intro b w inv h; simp [relay_list] at h
  | cons ls rest ih =>
      intro b w inv h
      cases b with
      | true => simp [relay_list] at h
      | false =>
          by_cases hn : CORBA_Object_is_nil ls = true
          · simp only [relay_list, hn, Bool.false_eq_true, if_false, if_true] at h
            exact ih false w inv h
          · simp only [relay_list, hn, Bool.false_eq_true, if_false, List.mem_cons] at h
            rcases h with h | h
            · subst h; rfl
            · exact ih _ _ inv h

end relay

/-! ## Facts about the grab pass -/

theorem grab_loop_only_grabs (maskList : List (Option Accessibility_ControllerEventMask)) :
    ∀ (remaining i : Nat), ∀ x ∈ (grab_loop maskList remaining i).2,
      ∃ modifiers, x = XCall.XGrabKey modifiers := by
  intro remaining
  induction remaining with
  | zero => intro i x h; simp [grab_loop] at h
  | succ k ih =>
      intro i x h
      simp only [grab_loop] at h
      split at h
      · simp only [List.mem_cons] at h
        rcases h with h | h
        · exact ⟨_, h⟩
        · exact ih _ x h
      · simp at h

theorem grab_keyboard_no_next_event (controller : DeviceEventController) :
    XCall.XNextEvent ∉ (_controller_grab_keyboard controller).2 := by
  intro h
  obtain ⟨m, hm⟩ := grab_loop_only_grabs _ _ _ _ h
  cases hm

/-! ## The dispatch pass -/

/-- The listener calls of a dispatch pass are those of the list recursion. -/
theorem check_key_event_relay {σ : Type} (XLookupKeysym : XEvent → Nat → Nat)
    (keyEvent : σ → CORBA_Object → Accessibility_KeyStroke → Bool × σ)
    (uninit : Accessibility_KeyStroke) (controller : DeviceEventController)
    (x_event : XEvent) (pending : List XEvent) (w : σ) :
    ∃ key_event,
      (_check_key_event XLookupKeysym keyEvent uninit controller x_event pending w).calls
        = (relay_list keyEvent key_event controller.key_listeners false w).2.2 ∧
      (_check_key_event XLookupKeysym keyEvent uninit controller x_event pending w).is_consumed
        = (relay_list keyEvent key_event controller.key_listeners false w).1 := by
  simp only [_check_key_event, g_list_length]
  rw [relay_loop_eq_relay_list keyEvent _ controller.key_listeners _ 0 false w (by simp)]
  exact ⟨_, rfl, rfl⟩

/-- The local `is_consumed` ends true exactly when some call answered true. -/
theorem check_key_event_is_consumed {σ : Type} (XLookupKeysym : XEvent → Nat → Nat)
    (keyEvent : σ → CORBA_Object → Accessibility_KeyStroke → Bool × σ)
    (uninit : Accessibility_KeyStroke) (controller : DeviceEventController)
    (x_event : XEvent) (pending : List XEvent) (w : σ) :
    (_check_key_event XLookupKeysym keyEvent uninit controller x_event pending w).is_consumed
      = (_check_key_event XLookupKeysym keyEvent uninit controller x_event pending w).calls.any
          Invocation.consumed := by
  obtain ⟨ke, h1, h2⟩ :=
    check_key_event_relay XLookupKeysym keyEvent uninit controller x_event pending w
  rw [h1, h2, relay_list_verdict]
  simp

/-- C1: with non-nil listeners only, a dispatch pass calls a prefix of the
listener list in list order, each once; a call that reports consumption is
the last call made, so no later listener is called; and when no call reports
consumption every listener of the list has been called. -/
theorem check_key_event_first_consumer_wins {σ : Type} (XLookupKeysym : XEvent → Nat → Nat)
    (keyEvent : σ → CORBA_Object → Accessibility_KeyStroke → Bool × σ)
    (uninit : Accessibility_KeyStroke) (controller : DeviceEventController)
    (x_event : XEvent) (pending : List XEvent) (w : σ)
    (hnil : ∀ o ∈ controller.key_listeners, CORBA_Object_is_nil o = false) :
    ((_check_key_event XLookupKeysym keyEvent uninit controller x_event pending w).calls.map
        Invocation.listener
      = controller.key_listeners.take
          (_check_key_event XLookupKeysym keyEvent uninit controller x_event pending w).calls.length)
    ∧ (∀ (j : Nat) (inv : Invocation),
        (_check_key_event XLookupKeysym keyEvent uninit controller x_event pending w).calls[j]?
          = some inv →
        inv.consumed = true →
        j + 1
          = (_check_key_event XLookupKeysym keyEvent uninit controller x_event pending w).calls.length)
    ∧ ((_check_key_event XLookupKeysym keyEvent uninit controller x_event pending w).calls.any
          Invocation.consumed = false →
        (_check_key_event XLookupKeysym keyEvent uninit controller x_event pending w).calls.length
          = controller.key_listeners.length) := by
  obtain ⟨ke, h1, h2⟩ :=
    check_key_event_relay XLookupKeysym keyEvent uninit controller x_event pending w
  have h3 := check_key_event_is_consumed XLookupKeysym keyEvent uninit controller x_event pending w
  rw [h1] at h3 ⊢
  refine ⟨relay_list_listeners keyEvent ke _ hnil false w, ?_, ?_⟩
  · intro j inv hj hc
    exact relay_list_stops keyEvent ke _ false w j inv hj hc
  · intro hany
    apply relay_list_exhausts keyEvent ke _ hnil false w
    rw [← h2, h3, hany]

/-- C1, on listeners 1, 2, 3 where listener 2 consumes: listeners 1 and 2 are
called and listener 3 is not. -/
theorem check_key_event_first_consumer_wins_witness :
    (∀ o ∈ ([1, 2, 3] : List CORBA_Object), CORBA_Object_is_nil o = false)
    ∧ (_check_key_event (fun e _ => e.keycode) (fun (u : Unit) o _ => (o == 2, u))
        ⟨0, Accessibility_KeyEventType.Accessibility_KEY_PRESSED, 0⟩ ⟨[1, 2, 3], []⟩
        ⟨KeyPress, 65, 0⟩ [] ()).calls.map Invocation.listener = [1, 2] :=
  ⟨by decide,
   (check_key_event_first_consumer_wins (fun e _ => e.keycode)
      (fun (u : Unit) o _ => (o == 2, u))
      ⟨0, Accessibility_KeyEventType.Accessibility_KEY_PRESSED, 0⟩ ⟨[1, 2, 3], []⟩
      ⟨KeyPress, 65, 0⟩ [] () (by decide)).1.trans (by decide)⟩

/-- C3 fails on the code: one listener consumes a key press, and the pass still
issues `XAllowEvents (ReplayKeyboard)`, so the consumed event is handed on to
the rest of the input stack. -/
theorem check_key_event_replays_consumed_event :
    ¬ ((_check_key_event plain_keymap (fixed_answers (fun _ => true)) stale_key_event
          ⟨[1], []⟩ ⟨KeyPress, 65, 0⟩ [] ()).calls.any Invocation.consumed = true →
        (_check_key_event plain_keymap (fixed_answers (fun _ => true)) stale_key_event
          ⟨[1], []⟩ ⟨KeyPress, 65, 0⟩ [] ()).queue = [] ∧
        XCall.XAllowEvents ReplayKeyboard ∉
          (_check_key_event plain_keymap (fixed_answers (fun _ => true)) stale_key_event
            ⟨[1], []⟩ ⟨KeyPress, 65, 0⟩ [] ()).xcalls) := by
  decide

/-- What consumption does change: when some listener reports it the pass takes
the event off the queue with `XNextEvent`; `XAllowEvents (ReplayKeyboard)`
is issued all the same. -/
theorem check_key_event_consumed_dequeues {σ : Type} (XLookupKeysym : XEvent → Nat → Nat)
    (keyEvent : σ → CORBA_Object → Accessibility_KeyStroke → Bool × σ)
    (uninit : Accessibility_KeyStroke) (controller : DeviceEventController)
    (x_event : XEvent) (pending : List XEvent) (w : σ)
    (hc : (_check_key_event XLookupKeysym keyEvent uninit controller x_event pending w).calls.any
      Invocation.consumed = true) :
    (_check_key_event XLookupKeysym keyEvent uninit controller x_event pending w).queue = pending
    ∧ XCall.XNextEvent ∈
        (_check_key_event XLookupKeysym keyEvent uninit controller x_event pending w).xcalls
    ∧ XCall.XAllowEvents ReplayKeyboard ∈
        (_check_key_event XLookupKeysym keyEvent uninit controller x_event pending w).xcalls := by
  have h := check_key_event_is_consumed XLookupKeysym keyEvent uninit controller x_event pending w
  rw [hc] at h
  simp only [_check_key_event] at h ⊢
  simp [h]

/-- One consuming listener and a queue holding two events: the first is taken
off. -/
theorem check_key_event_consumed_dequeues_witness :
    (_check_key_event plain_keymap (fixed_answers (fun _ => true)) stale_key_event
        ⟨[1], []⟩ ⟨KeyPress, 65, 0⟩ [⟨KeyRelease, 65, 0⟩] ()).queue = [⟨KeyRelease, 65, 0⟩] :=
  (check_key_event_consumed_dequeues plain_keymap (fixed_answers (fun _ => true))
    stale_key_event ⟨[1], []⟩ ⟨KeyPress, 65, 0⟩ [⟨KeyRelease, 65, 0⟩] () (by decide)).1

/-- C4: when no call reports consumption the pass leaves the event at the head
of the queue, makes no `XNextEvent` call and issues
`XAllowEvents (ReplayKeyboard)`. -/
theorem check_key_event_unconsumed_replayed {σ : Type} (XLookupKeysym : XEvent → Nat → Nat)
    (keyEvent : σ → CORBA_Object → Accessibility_KeyStroke → Bool × σ)
    (uninit : Accessibility_KeyStroke) (controller : DeviceEventController)
    (x_event : XEvent) (pending : List XEvent) (w : σ)
    (hc : (_check_key_event XLookupKeysym keyEvent uninit controller x_event pending w).calls.any
      Invocation.consumed = false) :
    (_check_key_event XLookupKeysym keyEvent uninit controller x_event pending w).queue
      = x_event :: pending
    ∧ XCall.XNextEvent ∉
        (_check_key_event XLookupKeysym keyEvent uninit controller x_event pending w).xcalls
    ∧ XCall.XAllowEvents ReplayKeyboard ∈
        (_check_key_event XLookupKeysym keyEvent uninit controller x_event pending w).xcalls := by
  have h := check_key_event_is_consumed XLookupKeysym keyEvent uninit controller x_event pending w
  rw [hc] at h
  have hg := grab_keyboard_no_next_event controller
  simp only [_check_key_event] at h ⊢
  simp [h, hg]

/-- C4, on the key press 65 without modifiers and one listener that answers
false: the listener gets `KeyStroke{65, 0, Pressed}`, the event stays queued
and the replay is issued. -/
theorem check_key_event_unconsumed_replayed_witness :
    (_check_key_event plain_keymap (fixed_answers (fun _ => false)) stale_key_event
        ⟨[1], []⟩ ⟨KeyPress, 65, 0⟩ [] ()).calls
      = [⟨1, ⟨65, Accessibility_KeyEventType.Accessibility_KEY_PRESSED, 0⟩, false⟩]
    ∧ ((_check_key_event plain_keymap (fixed_answers (fun _ => false)) stale_key_event
          ⟨[1], []⟩ ⟨KeyPress, 65, 0⟩ [] ()).queue = [⟨KeyPress, 65, 0⟩]
      ∧ XCall.XNextEvent ∉
          (_check_key_event plain_keymap (fixed_answers (fun _ => false)) stale_key_event
            ⟨[1], []⟩ ⟨KeyPress, 65, 0⟩ [] ()).xcalls
      ∧ XCall.XAllowEvents ReplayKeyboard ∈
          (_check_key_event plain_keymap (fixed_answers (fun _ => false)) stale_key_event
            ⟨[1], []⟩ ⟨KeyPress, 65, 0⟩ [] ()).xcalls) :=
  ⟨by decide,
   check_key_event_unconsumed_replayed plain_keymap (fixed_answers (fun _ => false))
     stale_key_event ⟨[1], []⟩ ⟨KeyPress, 65, 0⟩ [] () (by decide)⟩

/-- C5 fails on the code: for a `ButtonPress` event (type 4) the registered
listener is still called, with the unassigned `key_event`, and as it answers
true the event is taken off the queue. -/
theorem check_key_event_relays_button_press :
    (_check_key_event plain_keymap (fixed_answers (fun _ => true)) stale_key_event
        ⟨[1], []⟩ ⟨4, 0, 0⟩ [] ()).calls = [⟨1, stale_key_event, true⟩]
    ∧ (_check_key_event plain_keymap (fixed_answers (fun _ => true)) stale_key_event
        ⟨[1], []⟩ ⟨4, 0, 0⟩ [] ()).queue = [] := by
  decide

/-- C6 fails on the code: for the `KeyRelease` of key 65 the listener does not
get `KeyStroke{65, 0, Released}` but the unassigned `key_event`, whatever the
released key is. -/
theorem check_key_event_key_release_not_decoded :
    (_check_key_event plain_keymap (fixed_answers (fun _ => false)) stale_key_event
        ⟨[1], []⟩ ⟨KeyRelease, 65, 0⟩ [] ()).calls = [⟨1, stale_key_event, false⟩]
    ∧ (_check_key_event plain_keymap (fixed_answers (fun _ => false)) stale_key_event
        ⟨[1], []⟩ ⟨KeyRelease, 66, 1⟩ [] ()).calls = [⟨1, stale_key_event, false⟩]
    ∧ stale_key_event
        ≠ ⟨65, Accessibility_KeyEventType.Accessibility_KEY_RELEASED, 0⟩ := by
  decide

/-- For a `KeyPress` event every call gets the decoded stroke: the keysym as a
`CORBA_long`, the state reduced to 16 bits, and `KEY_PRESSED`. -/
theorem check_key_event_key_press_decoded {σ : Type} (XLookupKeysym : XEvent → Nat → Nat)
    (keyEvent : σ → CORBA_Object → Accessibility_KeyStroke → Bool × σ)
    (uninit : Accessibility_KeyStroke) (controller : DeviceEventController)
    (keycode state : Nat) (pending : List XEvent) (w : σ) :
    ∀ inv ∈ (_check_key_event XLookupKeysym keyEvent uninit controller
        ⟨KeyPress, keycode, state⟩ pending w).calls,
      inv.key_event =
        { keyID := to_signed 32 (XLookupKeysym ⟨KeyPress, keycode, state⟩ 0 : Nat)
          type := Accessibility_KeyEventType.Accessibility_KEY_PRESSED
          modifiers := state % 65536 } := by
  intro inv h
  simp only [_check_key_event, g_list_length, if_true] at h
  rw [relay_loop_eq_relay_list keyEvent _ controller.key_listeners _ 0 false w (by simp)] at h
  have := relay_list_key_event keyEvent _ _ false w inv h
  rw [this]
  simp only [to_unsigned, Accessibility_KeyStroke.mk.injEq, true_and]
  norm_cast

/-! ## Registration and deregistration -/

/-- A link pointer is not the data pointer of any listener link. -/
theorem g_list_remove_key_link (pos : Nat) (list : List CORBA_Object) :
    g_list_remove listener_data list (gpointer.key_link pos) = list := by
  have h : ∀ (l : List CORBA_Object) (i : Nat),
      g_list_remove_from listener_data (gpointer.key_link pos) i l = l := by
    intro l
    induction l with
    | nil => intro i; rfl
    | cons x rest ih =>
        intro i
        have hx : listener_data i x ≠ gpointer.key_link pos := by
          unfold listener_data
          split <;> simp
        simp [g_list_remove_from, hx, ih]
  exact h list 0

/-- Lines 156-158 leave the listener list as it was, found or not. -/
theorem deregister_key_listener_unchanged (controller : DeviceEventController)
    (l : CORBA_Object) : deregister_key_listener controller l = controller := by
  unfold deregister_key_listener
  cases g_list_find_custom controller.key_listeners l _compare_corba_objects with
  | none => simp [link_pointer]
  | some pos => simp [link_pointer, g_list_remove_key_link]

/-- Lines 160-169 never return a state: with the mask value present the
decrement goes through the link pointer, with it absent `mask_ptr` is null
when line 165 reads through it. -/
theorem deregister_keymask_faults (long_bits : Nat) (controller : DeviceEventController)
    (mask : Accessibility_ControllerEventMask) :
    deregister_keymask long_bits controller mask = Except.error (Fault.link_as_mask controller)
    ∨ deregister_keymask long_bits controller mask
        = Except.error (Fault.null_mask controller) := by
  unfold deregister_keymask
  cases g_list_find_custom controller.keymask_list (some mask)
      (_eventmask_compare_value long_bits) with
  | none => right; simp [link_pointer, refcount_load]
  | some pos => left; simp [link_pointer, refcount_store]

/-- A keyboard deregistration never returns a controller state, and when it
stops both lists are as they were on entry. -/
theorem deregister_keyboard_faults (long_bits : Nat) (controller : DeviceEventController)
    (l : CORBA_Object) (mask : Accessibility_ControllerEventMask) :
    _controller_deregister_device_listener long_bits controller l mask
        DeviceTypeCategory.DEVICE_TYPE_KBD = Except.error (Fault.link_as_mask controller)
    ∨ _controller_deregister_device_listener long_bits controller l mask
        DeviceTypeCategory.DEVICE_TYPE_KBD = Except.error (Fault.null_mask controller) := by
  simp only [_controller_deregister_device_listener, deregister_key_listener_unchanged]
  exact deregister_keymask_faults long_bits controller mask

/-- C2 fails on the code: registering handles 1, 2, 3 with mask values 1, 1, 2
does not end in a controller whose listener list is `[1, 2, 3]`; the second
call finds the mask and stores through the link pointer. -/
theorem register_repeated_mask_then_other_faults :
    keyboard_register_calls 64 device_event_controller_init
        [(1, ⟨1, 1⟩), (2, ⟨1, 1⟩), (3, ⟨2, 1⟩)]
      = Except.error (Fault.link_as_mask ⟨[1, 2], [some ⟨1, 1⟩]⟩) := by
  rfl

/-- C7 fails on the code: the second registration with mask value 1 does not
raise the entry's refcount to 2; the increment is applied through the link
pointer and the entry still reads refcount 1. -/
theorem register_twice_keeps_refcount_one :
    keyboard_register_calls 64 device_event_controller_init [(1, ⟨1, 1⟩), (2, ⟨1, 1⟩)]
      = Except.error (Fault.link_as_mask ⟨[1, 2], [some ⟨1, 1⟩]⟩)
    ∧ keyboard_register_calls 32 device_event_controller_init [(1, ⟨1, 1⟩), (2, ⟨1, 1⟩)]
      = Except.error (Fault.link_as_mask ⟨[1, 2], [some ⟨1, 1⟩]⟩) := by
  exact ⟨rfl, rfl⟩

/-- C8 fails on the code: deregistering mask value 1 from a registry that holds
it with refcount 1 does not remove the entry; the decrement is applied
through the link pointer and the entry is still there with refcount 1. -/
theorem deregister_last_reference_keeps_entry :
    _controller_deregister_device_listener 64 ⟨[1], [some ⟨1, 1⟩]⟩ 1 ⟨1, 1⟩
        DeviceTypeCategory.DEVICE_TYPE_KBD
      = Except.error (Fault.link_as_mask ⟨[1], [some ⟨1, 1⟩]⟩) := by
  rfl

/-- C9 fails on the code: deregistering the only reference to mask value 2
returns no state in which the mask is gone, and the function makes no Xlib
call, so no grab is released. -/
theorem deregister_releases_no_grab :
    _controller_deregister_device_listener 64 ⟨[1, 2], [some ⟨1, 1⟩, some ⟨2, 1⟩]⟩ 2 ⟨2, 1⟩
        DeviceTypeCategory.DEVICE_TYPE_KBD
      = Except.error (Fault.link_as_mask ⟨[1, 2], [some ⟨1, 1⟩, some ⟨2, 1⟩]⟩) := by
  rfl

/-- C10: for two non-null masks with 32-bit values and any refcounts,
`_eventmask_compare_value` returns 0 exactly when the values are equal,
whatever the width of `long` (at least 32 bits). -/
theorem eventmask_compare_value_zero_iff_same_value (long_bits : Nat) (hl : 32 ≤ long_bits)
    (a b : Accessibility_ControllerEventMask)
    (ha : a.value < 2 ^ 32) (hb : b.value < 2 ^ 32) :
    _eventmask_compare_value long_bits (some a) (some b) = 0 ↔ a.value = b.value :=
  eventmask_compare_zero_iff long_bits hl a b ha hb

/-- C10, on a 32-bit `long` with the values 0 and 2^31 and different
refcounts: the difference wraps to the most negative `int`, not to 0. -/
theorem eventmask_compare_value_zero_iff_same_value_witness :
    (32 ≤ 32 ∧ 0 < 2 ^ 32 ∧ 2147483648 < 2 ^ 32)
    ∧ (_eventmask_compare_value 32 (some ⟨0, 1⟩) (some ⟨2147483648, 7⟩) = 0
        ↔ (0 : Nat) = 2147483648) :=
  ⟨by decide,
   eventmask_compare_value_zero_iff_same_value 32 (by decide) ⟨0, 1⟩ ⟨2147483648, 7⟩
     (by decide) (by decide)⟩

/-! ## The grab pass as a scan of the mask list -/

theorem grab_loop_eq (maskList : List (Option Accessibility_ControllerEventMask)) :
    ∀ (remaining i : Nat), remaining + i = maskList.length →
      grab_loop maskList remaining i
        = ((maskList.drop i).all grabbable,
           ((maskList.drop i).takeWhile grabbable).map grab_request) := by
  intro remaining
  induction remaining with
  | zero =>
      intro i h
      have hi : maskList.length ≤ i := by omega
      simp [grab_loop, List.drop_eq_nil_of_le hi]
  | succ k ih =>
      intro i h
      have hi : i < maskList.length := by omega
      have hd : maskList.drop i = maskList[i] :: maskList.drop (i + 1) :=
        List.drop_eq_getElem_cons hi
      have hn : g_list_nth_data none maskList i = maskList[i] := by
        simp [g_list_nth_data, List.getD_eq_getElem?_getD, List.getElem?_eq_getElem hi]
      rw [hd]
      simp only [grab_loop, hn, ih (i + 1) (by omega)]
      cases hm : maskList[i] with
      | none =>
          have : (0xFFFFFFFF : Nat) &&& ControlMask ≠ 0 := by decide
          simp [grabbable, this]
      | some mask =>
          by_cases hc : mask.value &&& ControlMask = 0
          · simp [grabbable, grab_request, hc]
          · simp [grabbable, hc]

theorem grab_keyboard_eq (controller : DeviceEventController) :
    _controller_grab_keyboard controller
      = (controller.keymask_list.all grabbable,
         (controller.keymask_list.takeWhile grabbable).map grab_request) := by
  simp only [_controller_grab_keyboard, g_list_length]
  rw [grab_loop_eq _ _ 0 (by simp)]
  simp

/-- A mask preceded only by entries the loop goes past gets its grab request,
whatever follows it in the list. -/
theorem grab_keyboard_reaches (key_listeners : List CORBA_Object)
    (pre post : List (Option Accessibility_ControllerEventMask))
    (mask : Accessibility_ControllerEventMask)
    (hpre : ∀ e ∈ pre, grabbable e = true) (hmask : mask.value &&& ControlMask = 0) :
    XCall.XGrabKey mask.value
      ∈ (_controller_grab_keyboard ⟨key_listeners, pre ++ some mask :: post⟩).2 := by
  rw [grab_keyboard_eq]
  have hg : grabbable (some mask) = true := by simp [grabbable, hmask]
  have ht : (pre ++ some mask :: post).takeWhile grabbable
      = pre ++ (some mask :: post).takeWhile grabbable := by
    induction pre with
    | nil => rfl
    | cons x rest ih =>
        have hx : grabbable x = true := hpre x (List.mem_cons_self _ _)
        have hr : ∀ e ∈ rest, grabbable e = true :=
          fun e he => hpre e (List.mem_cons_of_mem _ he)
        simp [List.takeWhile_cons, hx, ih hr]
  simp only [ht, List.takeWhile_cons, hg, if_true, List.map_append, List.map_cons,
    List.mem_append, List.mem_cons]
  right; left
  rfl

/-- Every `XGrabKey` of a grab pass is for an entry the loop went past. -/
theorem grab_keyboard_requests_grabbable (controller : DeviceEventController)
    (modifiers : Nat)
    (h : XCall.XGrabKey modifiers ∈ (_controller_grab_keyboard controller).2) :
    modifiers &&& ControlMask = 0 := by
  rw [grab_keyboard_eq] at h
  simp only [List.mem_map] at h
  obtain ⟨e, he, hr⟩ := h
  have hg := List.mem_takeWhile_imp he
  cases e with
  | none => simp [grabbable] at hg
  | some mask =>
      simp only [grab_request, XCall.XGrabKey.injEq] at hr
      simp only [grabbable, beq_iff_eq] at hg
      rw [← hr]
      exact hg

/-- C14: whatever the mask list holds, every `XGrabKey` a grab pass issues has a
modifier value without the `ControlMask` bit. -/
theorem grab_keyboard_never_grabs_control (controller : DeviceEventController)
    (modifiers : Nat)
    (h : XCall.XGrabKey modifiers ∈ (_controller_grab_keyboard controller).2) :
    modifiers &&& ControlMask = 0 :=
  grab_keyboard_requests_grabbable controller modifiers h

/-- C14, on the registry left by registering mask 1 and then the control mask
4: both are recorded, the grab pass requests mask 1 only and returns FALSE. -/
theorem grab_keyboard_never_grabs_control_witness :
    keyboard_register_calls 64 device_event_controller_init [(1, ⟨1, 1⟩), (2, ⟨4, 1⟩)]
      = Except.ok ⟨[1, 2], [some ⟨1, 1⟩, some ⟨4, 1⟩]⟩
    ∧ _controller_grab_keyboard ⟨[1, 2], [some ⟨1, 1⟩, some ⟨4, 1⟩]⟩
      = (false, [XCall.XGrabKey 1])
    ∧ 1 &&& ControlMask = 0 :=
  ⟨rfl, by decide,
   grab_keyboard_never_grabs_control ⟨[1, 2], [some ⟨1, 1⟩, some ⟨4, 1⟩]⟩ 1 (by decide)⟩

/-- C15 as stated fails: with the control mask 4 ahead of mask 1 in the list,
the grab pass stops at the first entry and issues no request for mask 1. -/
theorem grab_keyboard_stops_at_control_mask :
    ¬ (1 &&& ControlMask = 0 →
        XCall.XGrabKey 1 ∈ (_controller_grab_keyboard ⟨[], [some ⟨4, 1⟩, some ⟨1, 1⟩]⟩).2) := by
  decide

/-! ## Registering a mask value that has no entry -/

/-- No entry of the list compares equal to a mask whose value none of them has. -/
theorem find_absent_mask (long_bits : Nat) (hl : 32 ≤ long_bits)
    (list : List (Option Accessibility_ControllerEventMask))
    (mask : Accessibility_ControllerEventMask)
    (hr : ∀ m, some m ∈ list → m.value < 2 ^ 32) (hm : mask.value < 2 ^ 32)
    (hno : ∀ m, some m ∈ list → m.value ≠ mask.value) :
    g_list_find_custom list (some mask) (_eventmask_compare_value long_bits) = none := by
  unfold g_list_find_custom
  rw [List.findIdx?_eq_none_iff]
  intro e he
  cases e with
  | none => simp [_eventmask_compare_value]
  | some m =>
      have := (eventmask_compare_zero_iff long_bits hl m mask (hr m he) hm).not.mpr (hno m he)
      simpa using this

/-- A keyboard registration with a mask value that has no entry appends the
handle and a new entry with refcount 1. -/
theorem register_keyboard_fresh (long_bits : Nat) (hl : 32 ≤ long_bits)
    (controller : DeviceEventController) (l : CORBA_Object)
    (mask : Accessibility_ControllerEventMask)
    (hr : ∀ m, some m ∈ controller.keymask_list → m.value < 2 ^ 32)
    (hm : mask.value < 2 ^ 32)
    (hno : ∀ m, some m ∈ controller.keymask_list → m.value ≠ mask.value) :
    _controller_register_device_listener long_bits controller l mask
        DeviceTypeCategory.DEVICE_TYPE_KBD
      = Except.ok ⟨controller.key_listeners ++ [l],
          controller.keymask_list ++ [some ⟨mask.value, 1⟩]⟩ := by
  simp only [_controller_register_device_listener,
    find_absent_mask long_bits hl controller.keymask_list mask hr hm hno, link_pointer,
    g_list_append, CORBA_Object_duplicate]
  simp

/-- C11: a keyboard registration with a mask value `v` that has no entry appends
`{value = v, refcount = 1}` at the end of the mask list and leaves the entries
before it as they were, whatever refcount the argument carries and whatever
32-bit value `v` is. -/
theorem register_new_mask_appends_entry (long_bits : Nat) (hl : 32 ≤ long_bits)
    (controller : DeviceEventController) (l : CORBA_Object)
    (mask : Accessibility_ControllerEventMask)
    (hr : ∀ m, some m ∈ controller.keymask_list → m.value < 2 ^ 32)
    (hm : mask.value < 2 ^ 32)
    (hno : ∀ m, some m ∈ controller.keymask_list → m.value ≠ mask.value) :
    _controller_register_device_listener long_bits controller l mask
        DeviceTypeCategory.DEVICE_TYPE_KBD
      = Except.ok ⟨controller.key_listeners ++ [l],
          controller.keymask_list ++ [some ⟨mask.value, 1⟩]⟩ :=
  register_keyboard_fresh long_bits hl controller l mask hr hm hno

/-- C11, on a registry holding mask 1 and an argument with value 4096 and
refcount 9: the new entry has value 4096 and refcount 1. -/
theorem register_new_mask_appends_entry_witness :
    _controller_register_device_listener 32 ⟨[1], [some ⟨1, 1⟩]⟩ 2 ⟨4096, 9⟩
        DeviceTypeCategory.DEVICE_TYPE_KBD
      = Except.ok ⟨[1] ++ [2], [some ⟨1, 1⟩] ++ [some ⟨4096, 1⟩]⟩ :=
  register_new_mask_appends_entry 32 (by decide) ⟨[1], [some ⟨1, 1⟩]⟩ 2 ⟨4096, 9⟩
    (by simp) (by decide) (by simp)

/-- The CORBA method with a mask value that has no entry: it returns the
extended controller, the environment it was given and no Xlib call. -/
theorem impl_register_fresh (long_bits : Nat) (hl : 32 ≤ long_bits)
    (controller : DeviceEventController) (l : CORBA_Object)
    (mask : Accessibility_ControllerEventMask) (ev : CORBA_Environment)
    (hr : ∀ m, some m ∈ controller.keymask_list → m.value < 2 ^ 32)
    (hm : mask.value < 2 ^ 32)
    (hno : ∀ m, some m ∈ controller.keymask_list → m.value ≠ mask.value) :
    impl_register_keystroke_listener long_bits controller l mask ev
      = Except.ok ⟨⟨controller.key_listeners ++ [l],
          controller.keymask_list ++ [some ⟨mask.value, 1⟩]⟩, ev, []⟩ := by
  simp only [impl_register_keystroke_listener,
    register_keyboard_fresh long_bits hl controller l mask hr hm hno]

/-- The Xlib calls of the grab pass are among those of the dispatch pass. -/
theorem check_key_event_includes_grab_pass {σ : Type} (XLookupKeysym : XEvent → Nat → Nat)
    (keyEvent : σ → CORBA_Object → Accessibility_KeyStroke → Bool × σ)
    (uninit : Accessibility_KeyStroke) (controller : DeviceEventController)
    (x_event : XEvent) (pending : List XEvent) (w : σ) (x : XCall)
    (h : x ∈ (_controller_grab_keyboard controller).2) :
    x ∈ (_check_key_event XLookupKeysym keyEvent uninit controller x_event pending w).xcalls := by
  simp only [_check_key_event, List.mem_append]
  right
  exact h

/-- C13 as stated fails: registering the control mask 4 on a new controller
returns normally, with no exception in the environment and the mask recorded. -/
theorem impl_register_accepts_control_mask :
    ¬ (4 &&& ControlMask ≠ 0 →
        ∀ r, impl_register_keystroke_listener 64 device_event_controller_init 1 ⟨4, 1⟩ none
          ≠ Except.ok r) := by
  intro h
  exact h (by decide) ⟨⟨[1], [some ⟨4, 1⟩]⟩, none, []⟩ rfl

/-- C13, amended: for a mask whose value includes the control bit and has no
entry yet, `registerKeystrokeListener` returns normally: the environment is
the one passed in (no `InvalidMask`), the mask is recorded with refcount 1,
and from then on the grab pass returns FALSE and never requests that value. -/
theorem impl_register_records_control_mask (long_bits : Nat) (hl : 32 ≤ long_bits)
    (controller : DeviceEventController) (l : CORBA_Object)
    (mask : Accessibility_ControllerEventMask) (ev : CORBA_Environment)
    (hr : ∀ m, some m ∈ controller.keymask_list → m.value < 2 ^ 32)
    (hm : mask.value < 2 ^ 32)
    (hno : ∀ m, some m ∈ controller.keymask_list → m.value ≠ mask.value)
    (hctl : mask.value &&& ControlMask ≠ 0) :
    impl_register_keystroke_listener long_bits controller l mask ev
      = Except.ok ⟨⟨controller.key_listeners ++ [l],
          controller.keymask_list ++ [some ⟨mask.value, 1⟩]⟩, ev, []⟩
    ∧ (_controller_grab_keyboard ⟨controller.key_listeners ++ [l],
          controller.keymask_list ++ [some ⟨mask.value, 1⟩]⟩).1 = false
    ∧ XCall.XGrabKey mask.value
        ∉ (_controller_grab_keyboard ⟨controller.key_listeners ++ [l],
            controller.keymask_list ++ [some ⟨mask.value, 1⟩]⟩).2 := by
  refine ⟨impl_register_fresh long_bits hl controller l mask ev hr hm hno, ?_, ?_⟩
  · rw [grab_keyboard_eq]
    simp [grabbable, hctl]
  · intro h
    exact hctl (grab_keyboard_requests_grabbable _ _ h)

/-- C13 amended, on a new controller and the control mask 4. -/
theorem impl_register_records_control_mask_witness :
    impl_register_keystroke_listener 64 device_event_controller_init 1 ⟨4, 1⟩ none
      = Except.ok ⟨⟨[1], [some ⟨4, 1⟩]⟩, none, []⟩ :=
  (impl_register_records_control_mask 64 (by decide) device_event_controller_init 1 ⟨4, 1⟩
    none (by simp [device_event_controller_init]) (by decide)
    (by simp [device_event_controller_init]) (by decide)).1

/-- C16 as stated fails: registering the grabbable mask 1 on a new controller
returns without any `XGrabKey` having been issued. -/
theorem impl_register_requests_no_grab :
    ¬ (1 &&& ControlMask = 0 →
        ∀ r, impl_register_keystroke_listener 64 device_event_controller_init 1 ⟨1, 1⟩ none
            = Except.ok r →
          XCall.XGrabKey 1 ∈ r.xcalls) := by
  intro h
  have := h (by decide) ⟨⟨[1], [some ⟨1, 1⟩]⟩, none, []⟩ rfl
  simp at this

/-- C16, amended: when `registerKeystrokeListener` returns for a grabbable mask
value that had no entry, both registries are updated and register has made
no Xlib call; the grab for that value is requested by the next dispatch pass,
provided every entry already in the registry is grabbable. -/
theorem impl_register_grab_left_to_dispatch {σ : Type} (long_bits : Nat) (hl : 32 ≤ long_bits)
    (controller : DeviceEventController) (l : CORBA_Object)
    (mask : Accessibility_ControllerEventMask) (ev : CORBA_Environment)
    (XLookupKeysym : XEvent → Nat → Nat)
    (keyEvent : σ → CORBA_Object → Accessibility_KeyStroke → Bool × σ)
    (uninit : Accessibility_KeyStroke) (x_event : XEvent) (pending : List XEvent) (w : σ)
    (hr : ∀ m, some m ∈ controller.keymask_list → m.value < 2 ^ 32)
    (hm : mask.value < 2 ^ 32)
    (hno : ∀ m, some m ∈ controller.keymask_list → m.value ≠ mask.value)
    (hpre : ∀ e ∈ controller.keymask_list, grabbable e = true)
    (hmask : mask.value &&& ControlMask = 0) :
    impl_register_keystroke_listener long_bits controller l mask ev
      = Except.ok ⟨⟨controller.key_listeners ++ [l],
          controller.keymask_list ++ [some ⟨mask.value, 1⟩]⟩, ev, []⟩
    ∧ XCall.XGrabKey mask.value
        ∈ (_check_key_event XLookupKeysym keyEvent uninit
            ⟨controller.key_listeners ++ [l],
              controller.keymask_list ++ [some ⟨mask.value, 1⟩]⟩ x_event pending w).xcalls := by
  refine ⟨impl_register_fresh long_bits hl controller l mask ev hr hm hno, ?_⟩
  apply check_key_event_includes_grab_pass
  exact grab_keyboard_reaches _ controller.keymask_list [] ⟨mask.value, 1⟩ hpre hmask

/-- C16 amended, on a new controller, mask 1 and a key press that follows. -/
theorem impl_register_grab_left_to_dispatch_witness :
    impl_register_keystroke_listener 64 device_event_controller_init 1 ⟨1, 1⟩ none
      = Except.ok ⟨⟨[] ++ [1], [] ++ [some ⟨1, 1⟩]⟩, none, []⟩
    ∧ XCall.XGrabKey 1
        ∈ (_check_key_event plain_keymap (fixed_answers (fun _ => false)) stale_key_event
            ⟨[] ++ [1], [] ++ [some ⟨1, 1⟩]⟩ ⟨KeyPress, 65, 0⟩ [] ()).xcalls :=
  impl_register_grab_left_to_dispatch 64 (by decide) device_event_controller_init 1 ⟨1, 1⟩
    none plain_keymap (fixed_answers (fun _ => false)) stale_key_event ⟨KeyPress, 65, 0⟩ [] ()
    (by simp [device_event_controller_init]) (by decide)
    (by simp [device_event_controller_init]) (by simp [device_event_controller_init])
    (by decide)

/-! ## What every series of calls preserves -/

/-- The lists after a registration, returned or carried by the stop: the same
lists, or the handle appended, or the handle and a new entry with refcount 1
appended. -/
theorem register_outcome (long_bits : Nat) (c : DeviceEventController) (l : CORBA_Object)
    (mask : Accessibility_ControllerEventMask) (type : DeviceTypeCategory) :
    lists_at (_controller_register_device_listener long_bits c l mask type) = c
    ∨ lists_at (_controller_register_device_listener long_bits c l mask type)
        = ⟨c.key_listeners ++ [l], c.keymask_list⟩
    ∨ lists_at (_controller_register_device_listener long_bits c l mask type)
        = ⟨c.key_listeners ++ [l], c.keymask_list ++ [some ⟨mask.value, 1⟩]⟩ := by
  cases type with
  | DEVICE_TYPE_MOUSE => left; rfl
  | DEVICE_TYPE_LAST_DEFINED => left; rfl
  | DEVICE_TYPE_KBD =>
      right
      simp only [_controller_register_device_listener, g_list_append, CORBA_Object_duplicate]
      cases g_list_find_custom c.keymask_list (some mask)
          (_eventmask_compare_value long_bits) with
      | none => right; simp [link_pointer, lists_at]
      | some pos => left; simp [link_pointer, refcount_store, lists_at]

/-- The lists after a deregistration are those before it. -/
theorem deregister_outcome (long_bits : Nat) (c : DeviceEventController) (l : CORBA_Object)
    (mask : Accessibility_ControllerEventMask) (type : DeviceTypeCategory) :
    lists_at (_controller_deregister_device_listener long_bits c l mask type) = c := by
  cases type with
  | DEVICE_TYPE_MOUSE => rfl
  | DEVICE_TYPE_LAST_DEFINED => rfl
  | DEVICE_TYPE_KBD =>
      rcases deregister_keyboard_faults long_bits c l mask with h | h <;> rw [h] <;> rfl

theorem controller_call_preserves (long_bits : Nat) (c : DeviceEventController)
    (call : ControllerCall)
    (h : refcounts_positive c ∧ c.keymask_list.length ≤ c.key_listeners.length) :
    refcounts_positive (lists_at (controller_call long_bits c call))
    ∧ (lists_at (controller_call long_bits c call)).keymask_list.length
        ≤ (lists_at (controller_call long_bits c call)).key_listeners.length := by
  cases call with
  | deregister l mask type =>
      simp only [controller_call, deregister_outcome]
      exact h
  | register l mask type =>
      simp only [controller_call]
      rcases register_outcome long_bits c l mask type with e | e | e <;> rw [e]
      · exact h
      · refine ⟨h.1, ?_⟩
        simp only [List.length_append, List.length_singleton]
        omega
      · refine ⟨?_, ?_⟩
        · intro x hx
          simp only [List.mem_append, List.mem_singleton] at hx
          rcases hx with hx | hx
          · exact h.1 x hx
          · exact ⟨_, hx, by simp, by simp⟩
        · simp only [List.length_append, List.length_singleton]
          omega

theorem controller_calls_preserve (long_bits : Nat) (calls : List ControllerCall) :
    ∀ c : DeviceEventController,
      refcounts_positive c ∧ c.keymask_list.length ≤ c.key_listeners.length →
      refcounts_positive (lists_at (controller_calls long_bits c calls))
      ∧ (lists_at (controller_calls long_bits c calls)).keymask_list.length
          ≤ (lists_at (controller_calls long_bits c calls)).key_listeners.length := by
  induction calls with
  | nil => intro c h; exact h
  | cons call rest ih =>
      intro c h
      have hs := controller_call_preserves long_bits c call h
      simp only [controller_calls]
      cases hc : controller_call long_bits c call with
      | ok c1 =>
          rw [hc] at hs
          exact ih c1 hs
      | error e =>
          rw [hc] at hs
          exact hs

theorem init_invariant :
    refcounts_positive device_event_controller_init
    ∧ device_event_controller_init.keymask_list.length
        ≤ device_event_controller_init.key_listeners.length := by
  refine ⟨?_, by simp [device_event_controller_init]⟩
  intro e he
  simp [device_event_controller_init] at he

/-- While a series of calls stays inside defined behaviour, every entry of the
mask registry it returns is a mask with a refcount from 1 to 65535.  Only
series of registrations with pairwise different values return a state. -/
theorem refcount_positive_while_defined (long_bits : Nat) (calls : List ControllerCall)
    (c : DeviceEventController)
    (h : controller_calls long_bits device_event_controller_init calls = Except.ok c) :
    refcounts_positive c := by
  have hp :=
    (controller_calls_preserve long_bits calls device_event_controller_init init_invariant).1
  rw [h] at hp
  exact hp

/-- C12 fails on the code: registering handle 1 with mask value 1 and then
deregistering it does not end in a registry whose entries can be read.  The
deregistration decrements `refcount` through the link pointer, so the series
leaves defined behaviour with the link of the only entry overwritten; the
mask struct itself still reads refcount 1 and is never unlinked. -/
theorem register_then_deregister_overwrites_link :
    controller_calls 64 device_event_controller_init
        [ControllerCall.register 1 ⟨1, 1⟩ DeviceTypeCategory.DEVICE_TYPE_KBD,
         ControllerCall.deregister 1 ⟨1, 1⟩ DeviceTypeCategory.DEVICE_TYPE_KBD]
      = Except.error (Fault.link_as_mask ⟨[1], [some ⟨1, 1⟩]⟩)
    ∧ ∀ c, controller_calls 64 device_event_controller_init
        [ControllerCall.register 1 ⟨1, 1⟩ DeviceTypeCategory.DEVICE_TYPE_KBD,
         ControllerCall.deregister 1 ⟨1, 1⟩ DeviceTypeCategory.DEVICE_TYPE_KBD]
      ≠ Except.ok c := by
  refine ⟨rfl, ?_⟩
  intro c h
  have e : controller_calls 64 device_event_controller_init
      [ControllerCall.register 1 ⟨1, 1⟩ DeviceTypeCategory.DEVICE_TYPE_KBD,
       ControllerCall.deregister 1 ⟨1, 1⟩ DeviceTypeCategory.DEVICE_TYPE_KBD]
      = Except.error (Fault.link_as_mask ⟨[1], [some ⟨1, 1⟩]⟩) := rfl
  rw [e] at h
  cases h

/-- C19: when the keyboard listener list is empty after any series of calls on a
new controller, a dispatch pass calls no listener, leaves the event at the
head of the queue, and makes the Xlib calls `XPeekEvent` and `XAllowEvents`
only: no `XNextEvent` and no `XGrabKey`. -/
theorem check_key_event_without_listeners {σ : Type} (long_bits : Nat)
    (calls : List ControllerCall) (XLookupKeysym : XEvent → Nat → Nat)
    (keyEvent : σ → CORBA_Object → Accessibility_KeyStroke → Bool × σ)
    (uninit : Accessibility_KeyStroke) (x_event : XEvent) (pending : List XEvent) (w : σ)
    (h : (lists_at (controller_calls long_bits device_event_controller_init calls)).key_listeners
      = []) :
    (_check_key_event XLookupKeysym keyEvent uninit
        (lists_at (controller_calls long_bits device_event_controller_init calls))
        x_event pending w).calls = []
    ∧ (_check_key_event XLookupKeysym keyEvent uninit
        (lists_at (controller_calls long_bits device_event_controller_init calls))
        x_event pending w).queue = x_event :: pending
    ∧ (_check_key_event XLookupKeysym keyEvent uninit
        (lists_at (controller_calls long_bits device_event_controller_init calls))
        x_event pending w).xcalls = [XCall.XPeekEvent, XCall.XAllowEvents ReplayKeyboard] := by
  have hinv :=
    (controller_calls_preserve long_bits calls device_event_controller_init init_invariant).2
  rw [h] at hinv
  have hm : (lists_at (controller_calls long_bits device_event_controller_init
      calls)).keymask_list = [] := List.eq_nil_of_length_eq_zero (by simpa using hinv)
  simp [_check_key_event, _controller_grab_keyboard, g_list_length, h, hm, relay_loop,
    grab_loop]

/-- C19, after a mouse registration and a keyboard deregistration on a new
controller (the listener list is still empty), for the key press 65. -/
theorem check_key_event_without_listeners_witness :
    (_check_key_event plain_keymap (fixed_answers (fun _ => true)) stale_key_event
        (lists_at (controller_calls 64 device_event_controller_init
          [ControllerCall.register 1 ⟨1, 1⟩ DeviceTypeCategory.DEVICE_TYPE_MOUSE,
           ControllerCall.deregister 1 ⟨1, 1⟩ DeviceTypeCategory.DEVICE_TYPE_KBD]))
        ⟨KeyPress, 65, 0⟩ [] ()).xcalls = [XCall.XPeekEvent, XCall.XAllowEvents ReplayKeyboard] :=
  (check_key_event_without_listeners 64
    [ControllerCall.register 1 ⟨1, 1⟩ DeviceTypeCategory.DEVICE_TYPE_MOUSE,
     ControllerCall.deregister 1 ⟨1, 1⟩ DeviceTypeCategory.DEVICE_TYPE_KBD]
    plain_keymap (fixed_answers (fun _ => true)) stale_key_event ⟨KeyPress, 65, 0⟩ [] ()
    rfl).2.2

/-! ## Deregistration and the mouse category -/

/-- C17 fails on the code: with handles 7 and 8 registered for masks 1 and 2,
deregistering handle 7 with mask 1 takes no entry off the listener list:
lines 156-158 leave it as `[7, 8]`, and the call then stops in the mask part
with both lists as they were. -/
theorem deregister_keeps_listener :
    keyboard_register_calls 64 device_event_controller_init [(7, ⟨1, 1⟩), (8, ⟨2, 1⟩)]
      = Except.ok ⟨[7, 8], [some ⟨1, 1⟩, some ⟨2, 1⟩]⟩
    ∧ deregister_key_listener ⟨[7, 8], [some ⟨1, 1⟩, some ⟨2, 1⟩]⟩ 7
      = ⟨[7, 8], [some ⟨1, 1⟩, some ⟨2, 1⟩]⟩
    ∧ _controller_deregister_device_listener 64 ⟨[7, 8], [some ⟨1, 1⟩, some ⟨2, 1⟩]⟩ 7 ⟨1, 1⟩
        DeviceTypeCategory.DEVICE_TYPE_KBD
      = Except.error (Fault.link_as_mask ⟨[7, 8], [some ⟨1, 1⟩, some ⟨2, 1⟩]⟩) := by
  exact ⟨rfl, rfl, rfl⟩

/-- C18 fails on the code: deregistering handle 9 with mask 2, neither of which
is present, does not complete: the mask lookup gives a null `mask_ptr` and
line 165 reads `mask_ptr->refcount`. -/
theorem deregister_absent_reads_null :
    _controller_deregister_device_listener 64 ⟨[7], [some ⟨1, 1⟩]⟩ 9 ⟨2, 1⟩
        DeviceTypeCategory.DEVICE_TYPE_KBD
      = Except.error (Fault.null_mask ⟨[7], [some ⟨1, 1⟩]⟩)
    ∧ _controller_deregister_device_listener 64 device_event_controller_init 9 ⟨2, 1⟩
        DeviceTypeCategory.DEVICE_TYPE_KBD
      = Except.error (Fault.null_mask device_event_controller_init) := by
  exact ⟨rfl, rfl⟩

/-- C20: a register or a deregister call with `DEVICE_TYPE_MOUSE` returns
normally and returns the controller it was given, so the listener list and
the mask registry are the same, and with them the listeners a dispatch pass
calls and the grabs a grab pass requests. -/
theorem mouse_calls_change_nothing (long_bits : Nat) (controller : DeviceEventController)
    (l : CORBA_Object) (mask : Accessibility_ControllerEventMask) :
    _controller_register_device_listener long_bits controller l mask
        DeviceTypeCategory.DEVICE_TYPE_MOUSE = Except.ok controller
    ∧ _controller_deregister_device_listener long_bits controller l mask
        DeviceTypeCategory.DEVICE_TYPE_MOUSE = Except.ok controller :=
  ⟨rfl, rfl⟩

/-! ## The result of the grab pass -/

theorem grab_request_of_grabbable (l : List (Option Accessibility_ControllerEventMask))
    (h : ∀ e ∈ l, grabbable e = true) :
    l.map grab_request
      = l.filterMap (fun e => e.map (fun m => XCall.XGrabKey m.value)) := by
  induction l with
  | nil => rfl
  | cons x rest ih =>
      have hr : ∀ e ∈ rest, grabbable e = true :=
        fun e he => h e (List.mem_cons_of_mem _ he)
      have hx : grabbable x = true := h x (List.mem_cons_self _ _)
      cases x with
      | none => simp [grabbable] at hx
      | some m => simp [grab_request, ih hr]

theorem grabbable_iff (e : Option Accessibility_ControllerEventMask) :
    grabbable e = true ↔ ∃ m, e = some m ∧ m.value &&& ControlMask = 0 := by
  cases e with
  | none => simp [grabbable]
  | some m => simp [grabbable]

/-- The grab pass on a list whose first ungrabbable entry is `stop`: it returns
FALSE and has made the requests for the entries ahead of `stop`, no other. -/
theorem grab_keyboard_stops (key_listeners : List CORBA_Object)
    (pre post : List (Option Accessibility_ControllerEventMask))
    (stop : Option Accessibility_ControllerEventMask)
    (hpre : ∀ e ∈ pre, grabbable e = true) (hstop : grabbable stop = false) :
    _controller_grab_keyboard ⟨key_listeners, pre ++ stop :: post⟩
      = (false, pre.filterMap (fun e => e.map (fun m => XCall.XGrabKey m.value))) := by
  rw [grab_keyboard_eq]
  have ht : (pre ++ stop :: post).takeWhile grabbable = pre := by
    induction pre with
    | nil => simp [List.takeWhile_cons, hstop]
    | cons x rest ih =>
        have hx : grabbable x = true := hpre x (List.mem_cons_self _ _)
        have hr : ∀ e ∈ rest, grabbable e = true :=
          fun e he => hpre e (List.mem_cons_of_mem _ he)
        simp [List.takeWhile_cons, hx, ih hr]
  simp only [ht, grab_request_of_grabbable pre hpre]
  simp [hstop]

/-- C15, amended: take any mask list and the entries `pre` ahead of a given
position, all of them grabbable (non-null, no control bit).  If the entry at
that position is a mask without the control bit, the grab pass issues its
grab request, whatever follows it in the list.  If it is ungrabbable, the
pass stops there: it returns FALSE and its requests are exactly those for
`pre`, in order, so no mask behind that entry is requested in this pass. -/
theorem grab_keyboard_grabs_before_first_ungrabbable (key_listeners : List CORBA_Object)
    (pre post : List (Option Accessibility_ControllerEventMask))
    (hpre : ∀ e ∈ pre, grabbable e = true) :
    (∀ mask : Accessibility_ControllerEventMask, mask.value &&& ControlMask = 0 →
      XCall.XGrabKey mask.value
        ∈ (_controller_grab_keyboard ⟨key_listeners, pre ++ some mask :: post⟩).2)
    ∧ (∀ stop : Option Accessibility_ControllerEventMask, grabbable stop = false →
      _controller_grab_keyboard ⟨key_listeners, pre ++ stop :: post⟩
        = (false, pre.filterMap (fun e => e.map (fun m => XCall.XGrabKey m.value)))) :=
  ⟨fun mask hmask => grab_keyboard_reaches key_listeners pre post mask hpre hmask,
   fun stop hstop => grab_keyboard_stops key_listeners pre post stop hpre hstop⟩

/-- C15 amended, on the list 1, 2, 4, 8: masks 1 and 2 are requested, the pass
returns FALSE at the control mask 4, and mask 8 behind it is not requested. -/
theorem grab_keyboard_grabs_before_first_ungrabbable_witness :
    (∀ e ∈ [some (⟨1, 1⟩ : Accessibility_ControllerEventMask), some ⟨2, 1⟩],
      grabbable e = true)
    ∧ _controller_grab_keyboard
        ⟨[], [some ⟨1, 1⟩, some ⟨2, 1⟩] ++ some ⟨4, 1⟩ :: [some ⟨8, 1⟩]⟩
      = (false, [XCall.XGrabKey 1, XCall.XGrabKey 2])
    ∧ XCall.XGrabKey 8
      ∉ (_controller_grab_keyboard
          ⟨[], [some ⟨1, 1⟩, some ⟨2, 1⟩] ++ some ⟨4, 1⟩ :: [some ⟨8, 1⟩]⟩).2 :=
  ⟨by decide,
   (grab_keyboard_grabs_before_first_ungrabbable [] [some ⟨1, 1⟩, some ⟨2, 1⟩]
     [some ⟨8, 1⟩] (by decide)).2 (some ⟨4, 1⟩) (by decide),
   by decide⟩

/-- C22: `_controller_grab_keyboard` returns TRUE exactly when every entry of
the mask list is a mask whose value lacks the control bit, and the `XGrabKey`
calls it makes are, in list order, those for the values of the entries ahead
of the first null or control-bit entry (all entries when there is none). -/
theorem grab_keyboard_result (controller : DeviceEventController) :
    ((_controller_grab_keyboard controller).1 = true
      ↔ ∀ e ∈ controller.keymask_list, ∃ m, e = some m ∧ m.value &&& ControlMask = 0)
    ∧ (_controller_grab_keyboard controller).2
      = (controller.keymask_list.takeWhile grabbable).filterMap
          (fun e => e.map (fun m => XCall.XGrabKey m.value)) := by
  rw [grab_keyboard_eq]
  refine ⟨?_, ?_⟩
  · simp only [List.all_eq_true, grabbable_iff]
  · exact grab_request_of_grabbable _ (fun e he => List.mem_takeWhile_imp he)

/-! ## Distinct values in the mask registry -/

/-- What holds of a new controller and is kept by every call holds after every
series of calls, for the state returned or the lists the stop carries. -/
theorem controller_calls_induct (long_bits : Nat) (P : DeviceEventController → Prop)
    (hstep : ∀ c call, P c → P (lists_at (controller_call long_bits c call)))
    (calls : List ControllerCall) :
    ∀ c : DeviceEventController, P c → P (lists_at (controller_calls long_bits c calls)) := by
  induction calls with
  | nil => intro c h; exact h
  | cons call rest ih =>
      intro c h
      have hs := hstep c call h
      simp only [controller_calls]
      cases hc : controller_call long_bits c call with
      | ok c1 =>
          rw [hc] at hs
          exact ih c1 hs
      | error e =>
          rw [hc] at hs
          exact hs

/-- Two masks of the same value compare equal, whatever the width of `long`. -/
theorem eventmask_compare_same_value (long_bits : Nat)
    (a b : Accessibility_ControllerEventMask) (h : a.value = b.value) :
    _eventmask_compare_value long_bits (some a) (some b) = 0 := by
  simp only [_eventmask_compare_value]
  rw [h, sub_self, to_signed_zero, to_signed_zero]

/-- The mask list after a registration: unchanged, or extended by an entry whose
value no entry had. -/
theorem register_outcome_masks (long_bits : Nat) (c : DeviceEventController)
    (l : CORBA_Object) (mask : Accessibility_ControllerEventMask)
    (type : DeviceTypeCategory) :
    (lists_at (_controller_register_device_listener long_bits c l mask type)).keymask_list
      = c.keymask_list
    ∨ ((lists_at (_controller_register_device_listener long_bits c l mask type)).keymask_list
        = c.keymask_list ++ [some ⟨mask.value, 1⟩]
      ∧ ∀ m, some m ∈ c.keymask_list → m.value ≠ mask.value) := by
  cases type with
  | DEVICE_TYPE_MOUSE => left; rfl
  | DEVICE_TYPE_LAST_DEFINED => left; rfl
  | DEVICE_TYPE_KBD =>
      simp only [_controller_register_device_listener, g_list_append, CORBA_Object_duplicate]
      cases hf : g_list_find_custom c.keymask_list (some mask)
          (_eventmask_compare_value long_bits) with
      | some pos => left; simp [link_pointer, refcount_store, lists_at]
      | none =>
          right
          refine ⟨by simp [link_pointer, lists_at], ?_⟩
          intro m hm hv
          unfold g_list_find_custom at hf
          rw [List.findIdx?_eq_none_iff] at hf
          have := hf (some m) hm
          simp [eventmask_compare_same_value long_bits m mask hv] at this

theorem controller_call_keeps_values_distinct (long_bits : Nat) (c : DeviceEventController)
    (call : ControllerCall) (h : (mask_values c).Nodup) :
    (mask_values (lists_at (controller_call long_bits c call))).Nodup := by
  cases call with
  | deregister l mask type =>
      simp only [controller_call, deregister_outcome]
      exact h
  | register l mask type =>
      simp only [controller_call]
      rcases register_outcome_masks long_bits c l mask type with e | ⟨e, hno⟩
      · simp only [mask_values, e]
        exact h
      · simp only [mask_values, e, List.map_append, List.map_cons, List.map_nil,
          Option.map_some']
        rw [List.nodup_append]
        refine ⟨h, List.nodup_singleton _, ?_⟩
        intro x hx hy
        simp only [List.mem_singleton] at hy
        subst hy
        simp only [List.mem_map] at hx
        obtain ⟨e0, he0, hv⟩ := hx
        cases e0 with
        | none => simp at hv
        | some m =>
            simp only [Option.map_some', Option.some.injEq] at hv
            exact hno m he0 hv

/-- While a series of calls stays inside defined behaviour, no two entries of
the mask registry it returns have the same value. -/
theorem mask_values_distinct_while_defined (long_bits : Nat) (calls : List ControllerCall)
    (c : DeviceEventController)
    (h : controller_calls long_bits device_event_controller_init calls = Except.ok c) :
    (mask_values c).Nodup := by
  have hp := controller_calls_induct long_bits (fun c => (mask_values c).Nodup)
    (controller_call_keeps_values_distinct long_bits) calls device_event_controller_init
    (by simp [mask_values, device_event_controller_init])
  rw [h] at hp
  exact hp

/-- C23 fails on the code: three keyboard registrations with mask value 5 do not
end in a registry that maps value 5 to a refcount.  The second call finds the
entry and stores through the link pointer, so the series leaves defined
behaviour there: the entry for 5 still reads refcount 1, its link is
overwritten, and the third call's lookup has no readable list to search. -/
theorem register_same_value_overwrites_link :
    controller_calls 64 device_event_controller_init
        [ControllerCall.register 1 ⟨5, 1⟩ DeviceTypeCategory.DEVICE_TYPE_KBD,
         ControllerCall.register 2 ⟨5, 1⟩ DeviceTypeCategory.DEVICE_TYPE_KBD,
         ControllerCall.register 3 ⟨5, 1⟩ DeviceTypeCategory.DEVICE_TYPE_KBD]
      = Except.error (Fault.link_as_mask ⟨[1, 2], [some ⟨5, 1⟩]⟩)
    ∧ ∀ c, controller_calls 64 device_event_controller_init
        [ControllerCall.register 1 ⟨5, 1⟩ DeviceTypeCategory.DEVICE_TYPE_KBD,
         ControllerCall.register 2 ⟨5, 1⟩ DeviceTypeCategory.DEVICE_TYPE_KBD,
         ControllerCall.register 3 ⟨5, 1⟩ DeviceTypeCategory.DEVICE_TYPE_KBD]
      ≠ Except.ok c := by
  refine ⟨rfl, ?_⟩
  intro c h
  have e : controller_calls 64 device_event_controller_init
      [ControllerCall.register 1 ⟨5, 1⟩ DeviceTypeCategory.DEVICE_TYPE_KBD,
       ControllerCall.register 2 ⟨5, 1⟩ DeviceTypeCategory.DEVICE_TYPE_KBD,
       ControllerCall.register 3 ⟨5, 1⟩ DeviceTypeCategory.DEVICE_TYPE_KBD]
      = Except.error (Fault.link_as_mask ⟨[1, 2], [some ⟨5, 1⟩]⟩) := rfl
  rw [e] at h
  cases h

/-- C24 fails on the code: after two keyboard registrations with mask value 1
the listener list has length 2 and the refcounts of the registry add up to 1,
the second call's increment having gone through the link pointer. -/
theorem register_twice_refcount_sum :
    (lists_at (keyboard_register_calls 64 device_event_controller_init
        [(1, ⟨1, 1⟩), (2, ⟨1, 1⟩)])).key_listeners.length = 2
    ∧ refcount_sum (lists_at (keyboard_register_calls 64 device_event_controller_init
        [(1, ⟨1, 1⟩), (2, ⟨1, 1⟩)])) = 1 := by
  exact ⟨rfl, rfl⟩

/-! ## The selected rows and columns -/

theorem copy_loop_eq_drop (buffer : List Int) :
    ∀ (remaining i : Nat), remaining + i = buffer.length →
      copy_loop buffer remaining i = buffer.drop i := by
  intro remaining
  induction remaining with
  | zero =>
      intro i h
      have hi : buffer.length ≤ i := by omega
      simp [copy_loop, List.drop_eq_nil_of_le hi]
  | succ k ih =>
      intro i h
      have hi : i < buffer.length := by omega
      rw [List.drop_eq_getElem_cons hi]
      simp only [copy_loop, ih (i + 1) (by omega)]
      simp [List.getD_eq_getElem?_getD, List.getElem?_eq_getElem hi]

theorem to_signed_of_small (bits : Nat) (n : Nat) (h : n < 2 ^ (bits - 1)) :
    to_signed bits (n : Int) = n := by
  unfold to_signed
  have h1 : ((n : Nat) : Int) < (2 : Int) ^ (bits - 1) := by exact_mod_cast h
  have h2 : (2 : Int) ^ (bits - 1) ≤ (2 : Int) ^ bits :=
    pow_le_pow_right₀ (by norm_num) (Nat.sub_le bits 1)
  have h3 : ((n : Nat) : Int) % (2 : Int) ^ bits = n :=
    Int.emod_eq_of_lt (by positivity) (lt_of_lt_of_le h1 h2)
  simp [h3, h1]

/-- The conversion with no pending exception, a sequence whose length fits a
`long`, and an allocation that succeeds. -/
theorem cspi_long_seq_to_array_copies (long_bits : Nat)
    (cspi_check_ev : CORBA_Environment → Bool) (malloc : Nat → Bool)
    (ev : CORBA_Environment) (seq : List Int)
    (hev : cspi_check_ev ev = true) (hlen : seq.length < 2 ^ (long_bits - 1))
    (hmalloc : ∀ size, malloc size = true) :
    cspi_long_seq_to_array long_bits cspi_check_ev malloc ev (some seq)
      = Except.ok { retval := seq.length, array := some seq } := by
  simp only [cspi_long_seq_to_array, hev, to_signed_of_small long_bits seq.length hlen,
    hmalloc, Int.toNat_ofNat]
  rw [copy_loop_eq_drop seq seq.length 0 (by simp)]
  simp

/-- C21: for a non-null table object, when `cspi_check_ev` finds no exception
after the remote call, `AccessibleTable_getSelectedRows` and
`AccessibleTable_getSelectedColumns` return the length of the sequence and
store an array holding its elements in the same order (the length fitting a
`long` and `malloc` returning a block); when `cspi_check_ev` finds an
exception, or when the object is NULL, they return 0 and store NULL. -/
theorem selected_rows_and_columns (long_bits : Nat)
    (cspi_check_ev : CORBA_Environment → Bool) (malloc : Nat → Bool)
    (remote : CORBA_Object → Option (List Int) × CORBA_Environment) (objref : CORBA_Object) :
    (∀ seq : List Int, (remote objref).1 = some seq →
      cspi_check_ev (remote objref).2 = true →
      seq.length < 2 ^ (long_bits - 1) → (∀ size, malloc size = true) →
      AccessibleTable_getSelectedRows long_bits cspi_check_ev malloc remote (some objref)
        = Except.ok { retval := seq.length, array := some seq }
      ∧ AccessibleTable_getSelectedColumns long_bits cspi_check_ev malloc remote (some objref)
        = Except.ok { retval := seq.length, array := some seq })
    ∧ (cspi_check_ev (remote objref).2 = false →
      AccessibleTable_getSelectedRows long_bits cspi_check_ev malloc remote (some objref)
        = Except.ok { retval := 0, array := none }
      ∧ AccessibleTable_getSelectedColumns long_bits cspi_check_ev malloc remote (some objref)
        = Except.ok { retval := 0, array := none })
    ∧ AccessibleTable_getSelectedRows long_bits cspi_check_ev malloc remote none
        = Except.ok { retval := 0, array := none }
    ∧ AccessibleTable_getSelectedColumns long_bits cspi_check_ev malloc remote none
        = Except.ok { retval := 0, array := none } := by
  refine ⟨?_, ?_, rfl, rfl⟩
  · intro seq hseq hev hlen hmalloc
    simp only [AccessibleTable_getSelectedRows, AccessibleTable_getSelectedColumns, hseq]
    exact ⟨cspi_long_seq_to_array_copies long_bits cspi_check_ev malloc _ seq hev hlen hmalloc,
      cspi_long_seq_to_array_copies long_bits cspi_check_ev malloc _ seq hev hlen hmalloc⟩
  · intro hev
    simp [AccessibleTable_getSelectedRows, AccessibleTable_getSelectedColumns,
      cspi_long_seq_to_array, hev]

/-- C21, on a 32-bit `long`, the sequence 3, -1, 4 returned without exception:
the functions return 3 and the array 3, -1, 4. -/
theorem selected_rows_and_columns_witness :
    AccessibleTable_getSelectedRows 32 (fun ev => ev.isNone) (fun _ => true)
        (fun _ => (some [3, -1, 4], none)) (some 5)
      = Except.ok { retval := 3, array := some [3, -1, 4] }
    ∧ AccessibleTable_getSelectedColumns 32 (fun ev => ev.isNone) (fun _ => true)
        (fun _ => (some [3, -1, 4], none)) (some 5)
      = Except.ok { retval := 3, array := some [3, -1, 4] } :=
  (selected_rows_and_columns 32 (fun ev => ev.isNone) (fun _ => true)
    (fun _ => (some [3, -1, 4], none)) 5).1 [3, -1, 4] rfl rfl (by decide) (fun _ => rfl)

end Registryd



